import Mathlib

/-!
# Verification of the Signal Hunt receiver core

Shallow embedding of `src/receiver/signal_hunt_receiver.ino` (ESP-NOW Signal
Hunt Receiver, version 3.2): the signal filter, distance estimator, beacon
registry, liveness tracker, discovery state machine and session/persistence
manager, together with proofs of the specification's testable properties.

Modelling conventions:
* machine integers (`int`, `unsigned long`) become `Int` / `Nat`; `millis()`
  timestamps become `Nat` (wrap-around is out of scope, traces carry monotone
  timestamps);
* `float` arithmetic becomes exact `ℚ` arithmetic in the state machine; the
  one transcendental operation, `pow(10, x)`, is passed in as an explicit
  oracle `est : ℚ → ℚ`, and is modelled exactly over `ℝ` (as `Real.rpow`)
  for the distance-estimator theorems;
* the EEPROM becomes an explicit record holding the fields the sketch
  stores (score and one found flag per slot);
* the value `sin(millis()/10000.0) * 10` used for the cosmetic radar-angle
  drift is passed into the sample event as an oracle `drift : ℚ`.
-/

namespace SignalHunt

/- Batteries marks the `Rat` arithmetic operations `@[irreducible]`, which
blocks elaborator-side evaluation in `decide`; restore the default
transparency locally so concrete rational computations evaluate. -/
attribute [local semireducible] Rat.add Rat.mul Rat.inv Rat.sub

/-! ## Game configuration constants (lines 29-34 of the sketch) -/

/-- `#define DISCOVERY_RANGE 0.5` (metres). -/
def DISCOVERY_RANGE : ℚ := 1/2

/-- `#define MIN_SIGNAL_COUNT 5`. -/
def MIN_SIGNAL_COUNT : Nat := 5

/-- `#define DISCOVERY_RSSI_THRESHOLD -70` (dBm). -/
def DISCOVERY_RSSI_THRESHOLD : ℚ := -70

/-- `#define SIGNAL_STABILITY_PERIOD 5000` (ms). -/
def SIGNAL_STABILITY_PERIOD : Nat := 5000

/-- `#define SIGNAL_TIMEOUT 5000` (ms). -/
def SIGNAL_TIMEOUT : Nat := 5000

/-- `#define RESET_COOLDOWN 5000` (ms). -/
def RESET_COOLDOWN : Nat := 5000

/-- `const int MAX_TRANSMITTERS = 10`. -/
def MAX_TRANSMITTERS : Nat := 10

/-- The local smoothing factor `const float rssiAlpha = 0.2` declared inside
`updateTransmitterData` (it shadows the unused global `0.3`). -/
def rssiAlpha : ℚ := 1/5

/-- `float txPower = -65.0` — reference RSSI at 1 metre. -/
def txPower : ℚ := -65

/-- `float pathLossExponent = 3.5`. -/
def pathLossExponent : ℚ := 7/2

/-- The calibration scale factor `1.8` applied to the raw path-loss
distance in `updateTransmitterData`. -/
def distanceScaleFactor : ℚ := 9/5

/-! ## Data model -/

/-- The ESP-NOW packet payload `SignalData` (`id`, `name`, `points`;
the `timestamp` field is never read by the receiver). -/
structure SignalData where
  id : Nat
  name : String
  points : Int
deriving DecidableEq

/-- `struct TransmitterData` — one registry slot plus its runtime state. -/
structure TransmitterData where
  id : Nat
  name : String
  points : Int
  distance : ℚ
  rssi : Int
  lastSeen : Nat
  isActive : Bool
  smoothedRSSI : ℚ
  signalCount : Nat
  angle : ℚ
deriving DecidableEq

/-- A default `TransmitterData` used as the out-of-bounds fallback of
list reads; every read in the model is in bounds, mirroring the fixed
C array. -/
def defaultTransmitter : TransmitterData :=
  { id := 0, name := "", points := 0, distance := 0, rssi := 0,
    lastSeen := 0, isActive := false, smoothedRSSI := 0, signalCount := 0,
    angle := 0 }

/-- `struct GameState` (the session singleton). -/
structure GameState where
  totalScore : Int
  foundTransmitters : List Bool
  sessionStart : Nat
  foundCount : Int
  maxDistance : ℚ
  lastResetTime : Nat
  resetMode : Bool
deriving DecidableEq

/-- The per-beacon static variables of `checkForNewDiscovery`
(`discoveryTimers[i]`, `discoveryInProgress[i]`). -/
structure DiscoveryState where
  inProgress : Bool
  timer : Nat
deriving DecidableEq

/-- The EEPROM contents the sketch persists: the score at `SCORE_ADDR`
and one found flag per slot starting at `FOUND_ADDR`. -/
structure Eeprom where
  score : Int
  found : List Bool
deriving DecidableEq

/-- The whole mutable state of the receiver process. -/
structure SystemState where
  transmitters : List TransmitterData
  game : GameState
  discovery : List DiscoveryState
  eeprom : Eeprom
deriving DecidableEq

/-! ## Beacon registry -/

/-- The fixed configuration list of `initializeTransmitterDB`
(`transmitterList[]`). -/
def transmitterList : List SignalData :=
  [⟨1001, "Alpha", 10⟩, ⟨1002, "Beta", 15⟩, ⟨1003, "Gamma", 20⟩,
   ⟨1004, "Delta", 25⟩, ⟨1005, "Epsilon", 30⟩, ⟨1006, "Omega", 50⟩]

/-- `transmitterCount` — the number of configured transmitters. -/
def transmitterCount : Nat := transmitterList.length

/-- `initializeTransmitterDB` — builds the transmitter database from the
configuration list, with neutral runtime defaults and evenly distributed
initial angles (`i * (360.0 / transmitterCount)`). -/
def initTransmitterDB : List TransmitterData :=
  (List.range transmitterCount).map fun i =>
    { id := (transmitterList.getD i ⟨0, "", 0⟩).id
      name := (transmitterList.getD i ⟨0, "", 0⟩).name
      points := (transmitterList.getD i ⟨0, "", 0⟩).points
      distance := 999
      rssi := -100
      lastSeen := 0
      isActive := false
      smoothedRSSI := -100
      signalCount := 0
      angle := (i : ℚ) * (360 / (transmitterCount : ℚ)) }

/-- The loop body of `findTransmitterIndex`, scanning from position `i`. -/
def findTransmitterIndexGo (id : Nat) : List TransmitterData → Nat → Option Nat
  | [], _ => none
  | t :: rest, i => if t.id = id then some i else findTransmitterIndexGo id rest (i + 1)

/-- `findTransmitterIndex` — linear scan of the database by transmitter id;
`none` models the C return value `-1`. -/
def findTransmitterIndex (ts : List TransmitterData) (id : Nat) : Option Nat :=
  findTransmitterIndexGo id ts 0

/-! ## Signal filter and distance estimator -/

/-- The Arduino `constrain(amt, low, high)` macro. -/
def constrainQ (x lo hi : ℚ) : ℚ :=
  if x < lo then lo else if x > hi then hi else x

/-- The exponential-smoothing update of `updateTransmitterData`:
`-100` is the "unset" sentinel (first reading bootstraps), otherwise
`newSmoothed = rssiAlpha * rssi + (1 - rssiAlpha) * previousSmoothed`. -/
def smoothRSSI (prev : ℚ) (rssi : Int) : ℚ :=
  if prev = -100 then (rssi : ℚ)
  else rssiAlpha * (rssi : ℚ) + (1 - rssiAlpha) * prev

/-- The angle-drift update of `updateTransmitterData`. `drift` stands for
the value `sin(millis() / 10000.0) * 10` computed there (so it always lies
in `[-10, 10]`). -/
def updateAngle (index : Nat) (drift : ℚ) (angle : ℚ) : ℚ :=
  let baseAngle : ℚ := ((index * 60) % 360 : Nat)
  let targetAngle := baseAngle + drift
  let d0 := targetAngle - angle
  let d1 := if d0 > 180 then d0 - 360 else d0
  let d2 := if d1 < -180 then d1 + 360 else d1
  let a1 := angle + d2 * (5/100)
  let a2 := if a1 ≥ 360 then a1 - 360 else a1
  if a2 < 0 then a2 + 360 else a2

/-- The per-record part of `updateTransmitterData`: stamps the sample,
bumps the (capped) signal count, copies name/points from the packet,
smooths the RSSI and recomputes the clamped distance estimate.
`est` is the oracle for `pow(10, ·)`: the raw distance is
`est ((txPower - smoothed) / (10 * pathLossExponent))`, scaled by
`distanceScaleFactor` and constrained to `[0.5, 50]`. -/
def updateTransmitterRecord (est : ℚ → ℚ) (now : Nat) (index : Nat)
    (rssi : Int) (data : SignalData) (drift : ℚ) (t : TransmitterData) :
    TransmitterData :=
  let sm := smoothRSSI t.smoothedRSSI rssi
  let rawDistance := est ((txPower - sm) / (10 * pathLossExponent))
  { t with
    lastSeen := now
    isActive := true
    signalCount := min 20 (t.signalCount + 1)
    name := data.name
    points := data.points
    rssi := rssi
    smoothedRSSI := sm
    distance := constrainQ (rawDistance * distanceScaleFactor) (1/2) 50
    angle := updateAngle index drift t.angle }

/-- The auto-calibration of `gameState.maxDistance` performed at the end of
`updateTransmitterData`. -/
def autoCalibrate (d : ℚ) (gs : GameState) : GameState :=
  if d > gs.maxDistance * (8/10) ∧ d < gs.maxDistance then
    { gs with maxDistance := gs.maxDistance * (19/20) + d * (6/5) * (1/20) }
  else gs

/-! ## Session persistence -/

/-- `saveGameState` — writes the score and all `MAX_TRANSMITTERS` found
flags to the EEPROM (the model keeps the flag block at its fixed width). -/
def saveGameState (gs : GameState) : Eeprom :=
  { score := gs.totalScore
    found := (List.range MAX_TRANSMITTERS).map fun i =>
      gs.foundTransmitters.getD i false }

/-- `loadGameState` — reads the score and found flags, counts the found
flags into `foundCount`, and if the score is out of the sane range
`[0, 10000]` reinitializes to the empty state and immediately persists it.
Returns the game state together with the (possibly rewritten) EEPROM. -/
def loadGameState (ee : Eeprom) : GameState × Eeprom :=
  let found := (List.range MAX_TRANSMITTERS).map fun i => ee.found.getD i false
  let gs0 : GameState :=
    { totalScore := ee.score
      foundTransmitters := found
      sessionStart := 0
      foundCount := (found.countP (fun b => b) : Int)
      maxDistance := 0
      lastResetTime := 0
      resetMode := false }
  if gs0.totalScore < 0 ∨ gs0.totalScore > 10000 then
    let gs1 := { gs0 with
      totalScore := 0
      foundCount := 0
      foundTransmitters := List.replicate MAX_TRANSMITTERS false }
    (gs1, saveGameState gs1)
  else (gs0, ee)

/-! ## Discovery state machine -/

/-- `checkForNewDiscovery` — the debounced discovery decision for slot
`index`, operating on the transmitter database, the game state, the static
per-slot discovery timers and the EEPROM (written through `saveGameState`
when a discovery fires). -/
def checkForNewDiscovery (now : Nat) (index : Nat) (ts : List TransmitterData)
    (gs : GameState) (ds : List DiscoveryState) (ee : Eeprom) :
    GameState × List DiscoveryState × Eeprom :=
  if gs.resetMode = true ∨ now - gs.lastResetTime < RESET_COOLDOWN then
    (gs, ds, ee)
  else
    let t := ts.getD index defaultTransmitter
    let d := ds.getD index ⟨false, 0⟩
    if t.signalCount < MIN_SIGNAL_COUNT then
      (gs, ds.set index ⟨false, 0⟩, ee)
    else if t.smoothedRSSI < DISCOVERY_RSSI_THRESHOLD then
      (gs, ds.set index ⟨false, 0⟩, ee)
    else if t.distance ≤ DISCOVERY_RANGE ∧ gs.foundTransmitters.getD index false = false then
      if d.inProgress = false then
        (gs, ds.set index ⟨true, now⟩, ee)
      else if SIGNAL_STABILITY_PERIOD ≤ now - d.timer then
        let gs' := { gs with
          foundTransmitters := gs.foundTransmitters.set index true
          totalScore := gs.totalScore + t.points
          foundCount := gs.foundCount + 1 }
        (gs', ds.set index ⟨false, d.timer⟩, saveGameState gs')
      else
        (gs, ds, ee)
    else
      (gs, ds.set index ⟨false, 0⟩, ee)

/-! ## Event handlers -/

/-- `OnDataReceived` — the accepted-sample path: dropped wholesale during
reset cooldown, otherwise registry lookup, `updateTransmitterData`
(per-record update plus max-distance auto-calibration) and
`checkForNewDiscovery`. Unknown ids are discarded. -/
def OnDataReceived (est : ℚ → ℚ) (now : Nat) (rssi : Int) (data : SignalData)
    (drift : ℚ) (σ : SystemState) : SystemState :=
  if σ.game.resetMode = true then σ
  else
    match findTransmitterIndex σ.transmitters data.id with
    | none => σ
    | some index =>
      let t' := updateTransmitterRecord est now index rssi data drift
        (σ.transmitters.getD index defaultTransmitter)
      let ts' := σ.transmitters.set index t'
      let gs1 := autoCalibrate t'.distance σ.game
      let r := checkForNewDiscovery now index ts' gs1 σ.discovery σ.eeprom
      { transmitters := ts', game := r.1, discovery := r.2.1, eeprom := r.2.2 }

/-- The per-record liveness test of `updateTransmitterStatus`: an active
transmitter not seen for more than `SIGNAL_TIMEOUT` is deactivated, its
distance reverts to the unknown sentinel `999` and its signal count to 0. -/
def sweepOne (now : Nat) (t : TransmitterData) : TransmitterData :=
  if t.isActive = true ∧ SIGNAL_TIMEOUT < now - t.lastSeen then
    { t with isActive := false, distance := 999, signalCount := 0 }
  else t

/-- `updateTransmitterStatus` — the liveness sweep over the database. -/
def updateTransmitterStatus (now : Nat) (ts : List TransmitterData) :
    List TransmitterData :=
  ts.map (sweepOne now)

/-- The per-record clearing performed by `handleResetAPI`: every runtime
field reverts to its just-initialized value; `id`, `name`, `points` and the
cosmetic `angle` are not written. -/
def resetRecord (t : TransmitterData) : TransmitterData :=
  { t with
    isActive := false, distance := 999, rssi := -100,
    smoothedRSSI := -100, lastSeen := 0, signalCount := 0 }

/-- `handleResetAPI` — clears score, found flags (for the configured
slots), and all per-transmitter runtime fields except the cosmetic angle;
enters reset cooldown and persists the cleared session. The static
discovery timers of `checkForNewDiscovery` are not touched. -/
def handleResetAPI (now : Nat) (σ : SystemState) : SystemState :=
  let gs1 := { σ.game with
    totalScore := 0
    foundCount := 0
    sessionStart := now
    lastResetTime := now
    resetMode := true
    foundTransmitters := (List.range transmitterCount).foldl
      (fun acc i => acc.set i false) σ.game.foundTransmitters }
  let ts1 := σ.transmitters.map resetRecord
  { transmitters := ts1, game := gs1, discovery := σ.discovery,
    eeprom := saveGameState gs1 }

/-- The cooldown-expiry check of `loop()`: once more than `RESET_COOLDOWN`
has passed since the last reset, leave reset mode. -/
def loopTick (now : Nat) (σ : SystemState) : SystemState :=
  if σ.game.resetMode = true ∧ RESET_COOLDOWN < now - σ.game.lastResetTime then
    { σ with game := { σ.game with resetMode := false } }
  else σ

/-- The empty EEPROM of a fresh device (score 0, no found flags set). -/
def emptyEeprom : Eeprom :=
  { score := 0, found := List.replicate MAX_TRANSMITTERS false }

/-- `setup()` — load the game state from the EEPROM, build the transmitter
database, and initialize the session fields (`maxDistance = 30`,
`lastResetTime = 0`, `resetMode = false`; the static discovery arrays are
zero-initialized). -/
def initialSystem (ee : Eeprom) : SystemState :=
  let r := loadGameState ee
  { transmitters := initTransmitterDB
    game := { r.1 with maxDistance := 30, lastResetTime := 0, resetMode := false }
    discovery := List.replicate MAX_TRANSMITTERS ⟨false, 0⟩
    eeprom := r.2 }

/-! ## Events and traces -/

/-- One accepted-sample event: arrival time, measured RSSI, packet payload
and the angle-drift oracle value at that instant. -/
structure SampleEv where
  now : Nat
  rssi : Int
  data : SignalData
  drift : ℚ
deriving DecidableEq

/-- A default sample used as the out-of-bounds fallback of trace reads. -/
def defaultSample : SampleEv := ⟨0, 0, ⟨0, "", 0⟩, 0⟩

/-- An event of the receiver's cooperative loop. -/
inductive Event where
  | sample (s : SampleEv)
  | sweep (now : Nat)
  | tick (now : Nat)
  | reset (now : Nat)
deriving DecidableEq

/-- The time at which an event occurs. -/
def Event.time : Event → Nat
  | .sample s => s.now
  | .sweep n => n
  | .tick n => n
  | .reset n => n

/-- One step of the receiver: dispatch an event to its handler. -/
def step (est : ℚ → ℚ) (σ : SystemState) (e : Event) : SystemState :=
  match e with
  | .sample s => OnDataReceived est s.now s.rssi s.data s.drift σ
  | .sweep now => { σ with transmitters := updateTransmitterStatus now σ.transmitters }
  | .tick now => loopTick now σ
  | .reset now => handleResetAPI now σ

/-- Run a trace of events from a state. -/
def run (est : ℚ → ℚ) (σ0 : SystemState) (tr : List Event) : SystemState :=
  tr.foldl (step est) σ0

/-- Run a trace of accepted samples from a state. -/
def runSamples (est : ℚ → ℚ) (σ0 : SystemState) (tr : List SampleEv) : SystemState :=
  tr.foldl (fun σ s => OnDataReceived est s.now s.rssi s.data s.drift σ) σ0

/-- The found flag of slot `i`. -/
def foundSlot (σ : SystemState) (i : Nat) : Bool :=
  σ.game.foundTransmitters.getD i false

/-- The discovery-timer state of slot `i`. -/
def discSlot (σ : SystemState) (i : Nat) : DiscoveryState :=
  σ.discovery.getD i ⟨false, 0⟩

/-! ## Invariant vocabulary -/

/-- The registry point value of slot `i` (from the configuration list). -/
def registryPoints (i : Nat) : Int := (transmitterList.getD i ⟨0, "", 0⟩).points

/-- The registry display name of slot `i`. -/
def registryName (i : Nat) : String := (transmitterList.getD i ⟨0, "", 0⟩).name

/-- The registry identity of slot `i`. -/
def registryId (i : Nat) : Nat := (transmitterList.getD i ⟨0, "", 0⟩).id

/-- The sum of registry point values over the found set (the found flags of
the configured slots). -/
def registryScore (found : List Bool) : Int :=
  ((List.range transmitterCount).map fun i =>
    if found.getD i false then registryPoints i else 0).sum

/-- The size of the found set (over the configured slots), as an `Int` to
match the sketch's `int foundCount`. -/
def registryFoundCount (found : List Bool) : Int :=
  ((List.range transmitterCount).map fun i =>
    if found.getD i false then (1 : Int) else 0).sum

/-- The session accounting invariant: `totalScore` is the sum of registry
point values over the found set and `foundCount` is its size. -/
def ScoreInv (gs : GameState) : Prop :=
  gs.totalScore = registryScore gs.foundTransmitters ∧
  gs.foundCount = registryFoundCount gs.foundTransmitters

/-- The database has the configured length and identities. -/
def IdsOk (ts : List TransmitterData) : Prop :=
  ts.length = transmitterCount ∧
  ∀ i, i < transmitterCount → (ts.getD i defaultTransmitter).id = registryId i

/-- Every slot's `points` field carries its registry value. -/
def PointsOk (ts : List TransmitterData) : Prop :=
  ∀ i, i < transmitterCount → (ts.getD i defaultTransmitter).points = registryPoints i

/-- Every slot's `name` field carries its registry value. -/
def NamesOk (ts : List TransmitterData) : Prop :=
  ∀ i, i < transmitterCount → (ts.getD i defaultTransmitter).name = registryName i

/-- The found-flag block has its fixed width. -/
def FlagsLenOk (gs : GameState) : Prop :=
  gs.foundTransmitters.length = MAX_TRANSMITTERS

/-- A packet is points-faithful: whatever configured slot its id resolves
to, it carries that slot's registry point value. -/
def PacketPointsMatch (data : SignalData) : Prop :=
  ∀ i, i < transmitterCount → registryId i = data.id →
    data.points = registryPoints i

/-- A packet carries the registry name and point value of the slot its id
resolves to. -/
def PacketMatchesRegistry (data : SignalData) : Prop :=
  ∀ i, i < transmitterCount → registryId i = data.id →
    data.name = registryName i ∧ data.points = registryPoints i

/-- The invariants of the session accounting, bundled. -/
def SessionInv (σ : SystemState) : Prop :=
  IdsOk σ.transmitters ∧ PointsOk σ.transmitters ∧
  FlagsLenOk σ.game ∧ ScoreInv σ.game

/-- Points-faithfulness of an event (only sample events carry packets). -/
def EventOk : Event → Prop
  | .sample s => PacketPointsMatch s.data
  | _ => True

/-- A concrete session state in which beacon 0 (`Alpha`, 10 points) has
already been found (used to instantiate idempotence at a concrete input). -/
def foundAlphaState : SystemState :=
  { transmitters := initTransmitterDB
    game := { totalScore := 10
              foundTransmitters := (List.replicate MAX_TRANSMITTERS false).set 0 true
              sessionStart := 0
              foundCount := 1
              maxDistance := 30
              lastResetTime := 0
              resetMode := false }
    discovery := List.replicate MAX_TRANSMITTERS ⟨false, 0⟩
    eeprom := emptyEeprom }

/-! ## Trace vocabulary for the discovery state machine -/

/-- The state reached after the first `m` samples of a trace. -/
def stateAt (est : ℚ → ℚ) (σ0 : SystemState) (tr : List SampleEv) (m : Nat) :
    SystemState :=
  runSamples est σ0 (tr.take m)

/-- The arrival time of the `m`-th (0-based) sample of a trace. -/
def timeAt (tr : List SampleEv) (m : Nat) : Nat := (tr.getD m defaultSample).now

/-- Whether a sample qualifies for discovery at the instant
`checkForNewDiscovery` evaluates it: the receiver is not in reset cooldown,
and the just-updated transmitter record satisfies
`signalCount ≥ MIN_SIGNAL_COUNT`, `smoothedRSSI ≥ DISCOVERY_RSSI_THRESHOLD`,
`distance ≤ DISCOVERY_RANGE`, with the beacon not already found. -/
def qualifiesB (est : ℚ → ℚ) (σ : SystemState) (s : SampleEv) : Bool :=
  match findTransmitterIndex σ.transmitters s.data.id with
  | none => false
  | some index =>
    let t' := updateTransmitterRecord est s.now index s.rssi s.data s.drift
      (σ.transmitters.getD index defaultTransmitter)
    (!σ.game.resetMode) &&
    decide (RESET_COOLDOWN ≤ s.now - σ.game.lastResetTime) &&
    decide (MIN_SIGNAL_COUNT ≤ t'.signalCount) &&
    decide (DISCOVERY_RSSI_THRESHOLD ≤ t'.smoothedRSSI) &&
    decide (t'.distance ≤ DISCOVERY_RANGE) &&
    (σ.game.foundTransmitters.getD index false == false)

/-- Qualification of the `m`-th (0-based) sample of a trace, checked in the
state the preceding samples produced. -/
def qualAt (est : ℚ → ℚ) (σ0 : SystemState) (tr : List SampleEv) (m : Nat) : Bool :=
  qualifiesB est (stateAt est σ0 tr m) (tr.getD m defaultSample)

/-- The claim's criterion for `Found`: at least `MIN_SIGNAL_COUNT`
consecutive qualifying samples spanning at least the stability period. -/
def SpecFoundRHS (est : ℚ → ℚ) (σ0 : SystemState) (tr : List SampleEv) : Prop :=
  ∃ k, k < tr.length ∧ ∃ j, j ≤ k ∧
    MIN_SIGNAL_COUNT ≤ k - j + 1 ∧
    SIGNAL_STABILITY_PERIOD ≤ timeAt tr k - timeAt tr j ∧
    ∀ m, j ≤ m → m ≤ k → qualAt est σ0 tr m = true

/-- The code's actual criterion for `Found`: an unbroken run of qualifying
samples containing at least two samples (the candidacy-start sample and a
later confirming one) whose arrival times span at least the stability
period. -/
def CodeFoundRHS (est : ℚ → ℚ) (σ0 : SystemState) (tr : List SampleEv) : Prop :=
  ∃ k, k < tr.length ∧ ∃ j, j < k ∧
    SIGNAL_STABILITY_PERIOD ≤ timeAt tr k - timeAt tr j ∧
    ∀ m, j ≤ m → m ≤ k → qualAt est σ0 tr m = true

/-- All samples of a trace carry the identity of registry slot `i`. -/
def TraceForBeacon (i : Nat) (tr : List SampleEv) : Prop :=
  ∀ s ∈ tr, s.data.id = registryId i

/-- Sample arrival times are nondecreasing (as `millis()` is). -/
def MonoTimes (tr : List SampleEv) : Prop :=
  ∀ m m', m ≤ m' → m' < tr.length → timeAt tr m ≤ timeAt tr m'

/-- The invariant carried along a single-beacon sample trace from a fresh
session: state sanity (no cooldown, fixed lengths and identities), the
found-flag/run-existence equivalence, and an exact description of the
static candidacy timer. -/
def C1Inv (est : ℚ → ℚ) (i : Nat) (tr : List SampleEv) : Prop :=
  (runSamples est (initialSystem emptyEeprom) tr).game.resetMode = false ∧
  (runSamples est (initialSystem emptyEeprom) tr).game.lastResetTime = 0 ∧
  (runSamples est (initialSystem emptyEeprom) tr).transmitters.length = transmitterCount ∧
  (∀ j, j < transmitterCount →
    ((runSamples est (initialSystem emptyEeprom) tr).transmitters.getD j
      defaultTransmitter).id = registryId j) ∧
  (runSamples est (initialSystem emptyEeprom) tr).discovery.length = MAX_TRANSMITTERS ∧
  (runSamples est (initialSystem emptyEeprom) tr).game.foundTransmitters.length =
    MAX_TRANSMITTERS ∧
  (foundSlot (runSamples est (initialSystem emptyEeprom) tr) i = true ↔
    CodeFoundRHS est (initialSystem emptyEeprom) tr) ∧
  (discSlot (runSamples est (initialSystem emptyEeprom) tr) i ≠ ⟨false, 0⟩ →
    1 ≤ tr.length ∧ RESET_COOLDOWN ≤ timeAt tr (tr.length - 1)) ∧
  (foundSlot (runSamples est (initialSystem emptyEeprom) tr) i = true →
    (discSlot (runSamples est (initialSystem emptyEeprom) tr) i).inProgress = false) ∧
  (foundSlot (runSamples est (initialSystem emptyEeprom) tr) i = true →
    1 ≤ tr.length →
    qualAt est (initialSystem emptyEeprom) tr (tr.length - 1) = false →
    discSlot (runSamples est (initialSystem emptyEeprom) tr) i = ⟨false, 0⟩) ∧
  (foundSlot (runSamples est (initialSystem emptyEeprom) tr) i = false →
    (discSlot (runSamples est (initialSystem emptyEeprom) tr) i).inProgress = false →
    discSlot (runSamples est (initialSystem emptyEeprom) tr) i = ⟨false, 0⟩ ∧
    (tr.length = 0 ∨ qualAt est (initialSystem emptyEeprom) tr (tr.length - 1) = false)) ∧
  (foundSlot (runSamples est (initialSystem emptyEeprom) tr) i = false →
    (discSlot (runSamples est (initialSystem emptyEeprom) tr) i).inProgress = true →
    1 ≤ tr.length ∧
    qualAt est (initialSystem emptyEeprom) tr (tr.length - 1) = true ∧
    ∃ st, st ≤ tr.length - 1 ∧
      (discSlot (runSamples est (initialSystem emptyEeprom) tr) i).timer = timeAt tr st ∧
      (∀ m, st ≤ m → m ≤ tr.length - 1 →
        qualAt est (initialSystem emptyEeprom) tr m = true) ∧
      (st = 0 ∨ qualAt est (initialSystem emptyEeprom) tr (st - 1) = false) ∧
      timeAt tr (tr.length - 1) - timeAt tr st < SIGNAL_STABILITY_PERIOD)

/-- The packet payload of the `Alpha` beacon. -/
def alphaData : SignalData := ⟨1001, "Alpha", 10⟩

/-- A concrete `pow(10, ·)` oracle for the counterexample trace: it agrees
with the real `10 ^ x` on every decision the trace reaches. The trace
evaluates the oracle only at the exponents `-1/7 ≈ -0.143`,
`-13/35 ≈ -0.371`, `-97/175 ≈ -0.554`, `-613/875 ≈ -0.7006` and
`-3577/4375 ≈ -0.8176`; on the first three `10 ^ x ≥ 0.279`, so the scaled
distance exceeds `0.5` exactly as with the value 1, and on the last two
`10 ^ x ≤ 0.1995`, so the scaled distance clamps up to `0.5` exactly as
with the value `1/5`. -/
def est0 : ℚ → ℚ := fun x => if x ≤ -7/10 then 1/5 else 1

/-- The counterexample trace for the discovery claim: five strong-but-far
samples build `signalCount` to 5; two closer samples move the smoothed
RSSI without yet qualifying; sample 8 (0-based 7) is the first qualifying
one and starts candidacy at 6700 ms; sample 9 at 11700 ms (exactly the
stability period later) is the second qualifying sample and fires the
discovery. Only two samples ever qualify. -/
def exTrace : List SampleEv :=
  [⟨6000, -60, alphaData, 0⟩, ⟨6100, -60, alphaData, 0⟩, ⟨6200, -60, alphaData, 0⟩,
   ⟨6300, -60, alphaData, 0⟩, ⟨6400, -60, alphaData, 0⟩, ⟨6500, -20, alphaData, 0⟩,
   ⟨6600, -20, alphaData, 0⟩, ⟨6700, -20, alphaData, 0⟩, ⟨11700, -20, alphaData, 0⟩]

/-! ## The distance estimator over the reals

The sketch's `pow(10, x)` is transcendental, so it is modelled exactly over
`ℝ` here; the `est : ℚ → ℚ` oracle of `updateTransmitterRecord` stands for
this function. -/

/-- `float txPower = -65.0`, over `ℝ`. -/
noncomputable def txPowerR : ℝ := -65

/-- `float pathLossExponent = 3.5`, over `ℝ`. -/
noncomputable def pathLossExponentR : ℝ := 7/2

/-- The Arduino `constrain` macro over `ℝ`. -/
noncomputable def constrainR (x lo hi : ℝ) : ℝ :=
  if x < lo then lo else if x > hi then hi else x

/-- `pow(10, x)` of the sketch, as `Real.rpow`. -/
noncomputable def pow10R (x : ℝ) : ℝ := (10 : ℝ) ^ x

/-- The distance computation of `updateTransmitterData`, lines 294-311:
log-distance path-loss model `10 ^ ((txPower - s) / (10 * n))`, scaled by
the calibration factor `1.8`, constrained to `[0.5, 50.0]`. -/
noncomputable def estimateDistanceR (s : ℝ) : ℝ :=
  constrainR (pow10R ((txPowerR - s) / (10 * pathLossExponentR)) * (9/5)) (1/2) 50

/-! # Theorems -/

/-! ## Generic list helper lemmas -/

theorem getD_set_self {α : Type} (l : List α) (i : Nat) (a d : α)
    (h : i < l.length) : (l.set i a).getD i d = a := by
  induction l generalizing i with
  | nil => simp at h
  | cons x xs ih =>
    cases i with
    | zero => rfl
    | succ n => exact ih n (by simpa using h)

theorem getD_set_ne {α : Type} (l : List α) (i j : Nat) (a d : α)
    (h : i ≠ j) : (l.set i a).getD j d = l.getD j d := by
  induction l generalizing i j with
  | nil => rfl
  | cons x xs ih =>
    cases i with
    | zero =>
      cases j with
      | zero => exact absurd rfl h
      | succ m => rfl
    | succ n =>
      cases j with
      | zero => rfl
      | succ m => exact ih n m (fun hnm => h (by omega))

theorem getD_map_of_lt {α β : Type} (f : α → β) (l : List α) (i : Nat)
    (d : α) (d' : β) (h : i < l.length) :
    (l.map f).getD i d' = f (l.getD i d) := by
  induction l generalizing i with
  | nil => simp at h
  | cons x xs ih =>
    cases i with
    | zero => rfl
    | succ n => exact ih n (by simpa using h)

theorem getD_of_length_le {α : Type} (l : List α) (i : Nat) (d : α)
    (h : l.length ≤ i) : l.getD i d = d := by
  induction l generalizing i with
  | nil => rfl
  | cons x xs ih =>
    cases i with
    | zero => simp at h
    | succ n => exact ih n (by simpa using h)

theorem getD_set_self_default {α : Type} (l : List α) (j : Nat) (d : α) :
    (l.set j d).getD j d = d := by
  induction l generalizing j with
  | nil => rfl
  | cons x xs ih =>
    cases j with
    | zero => rfl
    | succ n => exact ih n

/-! ## Registry lookup helper lemmas -/

theorem findGo_some (id : Nat) :
    ∀ (l : List TransmitterData) (i0 j : Nat),
      findTransmitterIndexGo id l i0 = some j →
      i0 ≤ j ∧ j - i0 < l.length ∧
        (l.getD (j - i0) defaultTransmitter).id = id := by
  intro l
  induction l with
  | nil => intro i0 j h; simp [findTransmitterIndexGo] at h
  | cons t rest ih =>
    intro i0 j h
    unfold findTransmitterIndexGo at h
    by_cases ht : t.id = id
    · rw [if_pos ht] at h
      have hj : i0 = j := Option.some.inj h
      subst hj
      simpa using ht
    · rw [if_neg ht] at h
      obtain ⟨h1, h2, h3⟩ := ih (i0 + 1) j h
      refine ⟨by omega, by simp; omega, ?_⟩
      have hd : j - i0 = (j - (i0 + 1)) + 1 := by omega
      rw [hd]
      exact h3

theorem findTransmitterIndex_some (ts : List TransmitterData) (id j : Nat)
    (h : findTransmitterIndex ts id = some j) :
    j < ts.length ∧ (ts.getD j defaultTransmitter).id = id := by
  obtain ⟨_, h2, h3⟩ := findGo_some id ts 0 j h
  rw [Nat.sub_zero] at h2 h3
  exact ⟨h2, h3⟩

/-! ## Clamp helper lemmas -/

theorem constrainR_mem {x lo hi : ℝ} (h : lo ≤ hi) :
    lo ≤ constrainR x lo hi ∧ constrainR x lo hi ≤ hi := by
  unfold constrainR
  split_ifs with h1 h2
  · exact ⟨le_refl lo, h⟩
  · exact ⟨h, le_refl hi⟩
  · exact ⟨not_lt.mp h1, not_lt.mp h2⟩

theorem constrainR_mono {x y lo hi : ℝ} (h : lo ≤ hi) (hxy : x ≤ y) :
    constrainR x lo hi ≤ constrainR y lo hi := by
  unfold constrainR
  split_ifs <;> linarith

theorem constrainQ_mem {x lo hi : ℚ} (h : lo ≤ hi) :
    lo ≤ constrainQ x lo hi ∧ constrainQ x lo hi ≤ hi := by
  unfold constrainQ
  split_ifs with h1 h2
  · exact ⟨le_refl lo, h⟩
  · exact ⟨h, le_refl hi⟩
  · exact ⟨not_lt.mp h1, not_lt.mp h2⟩

/-! ## Claim C5 — distance estimate clamped and antitone -/

/-- **C5.** For every smoothed strength value, the distance estimate
`constrain(10 ^ ((txPower - s) / (10 * pathLossExponent)) * 1.8, 0.5, 50)`
computed on sample ingestion lies in the closed interval `[0.5, 50.0]`, and
it is antitone in the smoothed strength: a stronger (larger) smoothed RSSI
never yields a larger distance. The state machine's `distance` field obeys
the same clamp for every `pow(10, ·)` oracle. -/
theorem C5_distance_clamped_antitone :
    (∀ s : ℝ, 1/2 ≤ estimateDistanceR s ∧ estimateDistanceR s ≤ 50) ∧
    (∀ s1 s2 : ℝ, s1 ≤ s2 → estimateDistanceR s2 ≤ estimateDistanceR s1) ∧
    (∀ (est : ℚ → ℚ) (now index : Nat) (rssi : Int) (data : SignalData)
       (drift : ℚ) (t : TransmitterData),
       1/2 ≤ (updateTransmitterRecord est now index rssi data drift t).distance ∧
       (updateTransmitterRecord est now index rssi data drift t).distance ≤ 50) := by
  refine ⟨?_, ?_, ?_⟩
  · intro s
    exact constrainR_mem (by norm_num)
  · intro s1 s2 h
    unfold estimateDistanceR
    apply constrainR_mono (by norm_num)
    apply mul_le_mul_of_nonneg_right _ (by norm_num : (0:ℝ) ≤ 9/5)
    unfold pow10R
    rw [Real.rpow_le_rpow_left_iff (by norm_num : (1:ℝ) < 10)]
    apply div_le_div_of_nonneg_right _ _
    · unfold txPowerR; linarith
    · unfold pathLossExponentR; norm_num
  · intro est now index rssi data drift t
    show 1/2 ≤ constrainQ _ (1/2) 50 ∧ constrainQ _ (1/2) 50 ≤ 50
    exact constrainQ_mem (by norm_num)

/-- Witness for C5 at a concrete input. -/
theorem C5_witness :
    (-70 : ℝ) ≤ -60 ∧ estimateDistanceR (-60) ≤ estimateDistanceR (-70) :=
  ⟨by norm_num, C5_distance_clamped_antitone.2.1 (-70) (-60) (by norm_num)⟩

/-! ## Claim C6 — signal filter bootstrap and smoothing -/

/-- **C6.** The signal filter: if the previous smoothed strength is the
unset sentinel `-100`, the new smoothed strength equals the raw sample
exactly (in particular, the very first sample on a just-initialized slot
bootstraps to the raw value); otherwise it equals
`α·raw + (1−α)·previous` with the fixed `α = 0.2 ∈ (0,1)`. -/
theorem C6_signal_filter :
    (∀ r : Int, smoothRSSI (-100) r = (r : ℚ)) ∧
    (∀ (p : ℚ) (r : Int), p ≠ -100 →
      smoothRSSI p r = rssiAlpha * (r : ℚ) + (1 - rssiAlpha) * p) ∧
    (0 < rssiAlpha ∧ rssiAlpha < 1) ∧
    (∀ i : Nat, i < transmitterCount →
      (initTransmitterDB.getD i defaultTransmitter).smoothedRSSI = -100) ∧
    (∀ (est : ℚ → ℚ) (now index : Nat) (rssi : Int) (data : SignalData)
       (drift : ℚ) (t : TransmitterData), t.smoothedRSSI = -100 →
       (updateTransmitterRecord est now index rssi data drift t).smoothedRSSI
         = (rssi : ℚ)) := by
  refine ⟨?_, ?_, ?_, ?_, ?_⟩
  · intro r; simp [smoothRSSI]
  · intro p r hp; simp [smoothRSSI, hp]
  · constructor <;> norm_num [rssiAlpha]
  · decide
  · intro est now index rssi data drift t ht
    show smoothRSSI t.smoothedRSSI rssi = (rssi : ℚ)
    simp [smoothRSSI, ht]

/-- Witness for C6 at a concrete input. -/
theorem C6_witness :
    (-60 : ℚ) ≠ -100 ∧
    smoothRSSI (-60) (-50) = rssiAlpha * ((-50 : Int) : ℚ) + (1 - rssiAlpha) * (-60) :=
  ⟨by norm_num, C6_signal_filter.2.1 (-60) (-50) (by norm_num)⟩

/-! ## Claim C7 — liveness sweep deactivates timed-out beacons -/

/-- **C7.** For every beacon slot: if the beacon is active and more than
`SIGNAL_TIMEOUT` has elapsed since `lastSeen`, the very next liveness sweep
sets `isActive := false`, resets `distance` to the unknown sentinel `999`
and `signalCount` to `0` (no new sample needed — the sweep acts on the
stored state alone); a beacon that is not active-and-past-timeout is left
completely unchanged by the sweep. -/
theorem C7_liveness_sweep :
    ∀ (now : Nat) (ts : List TransmitterData) (i : Nat),
      i < ts.length →
      (((ts.getD i defaultTransmitter).isActive = true ∧
          SIGNAL_TIMEOUT < now - (ts.getD i defaultTransmitter).lastSeen) →
        (updateTransmitterStatus now ts).getD i defaultTransmitter =
          { ts.getD i defaultTransmitter with
            isActive := false, distance := 999, signalCount := 0 }) ∧
      (¬ ((ts.getD i defaultTransmitter).isActive = true ∧
          SIGNAL_TIMEOUT < now - (ts.getD i defaultTransmitter).lastSeen) →
        (updateTransmitterStatus now ts).getD i defaultTransmitter =
          ts.getD i defaultTransmitter) := by
  intro now ts i hi
  have hmap : (updateTransmitterStatus now ts).getD i defaultTransmitter =
      sweepOne now (ts.getD i defaultTransmitter) :=
    getD_map_of_lt (sweepOne now) ts i defaultTransmitter defaultTransmitter hi
  constructor
  · intro h
    rw [hmap]
    unfold sweepOne
    rw [if_pos h]
  · intro h
    rw [hmap]
    unfold sweepOne
    rw [if_neg h]

/-- Witness for C7 at a concrete input: an active beacon last seen at time
0 is deactivated by a sweep at time 6000. -/
theorem C7_witness :
    (0 : Nat) < ([{ defaultTransmitter with isActive := true }] :
        List TransmitterData).length ∧
    ((([{ defaultTransmitter with isActive := true }] :
        List TransmitterData).getD 0 defaultTransmitter).isActive = true ∧
      SIGNAL_TIMEOUT <
        6000 - (([{ defaultTransmitter with isActive := true }] :
          List TransmitterData).getD 0 defaultTransmitter).lastSeen →
      (updateTransmitterStatus 6000
          [{ defaultTransmitter with isActive := true }]).getD 0 defaultTransmitter =
        { ([{ defaultTransmitter with isActive := true }] :
            List TransmitterData).getD 0 defaultTransmitter with
          isActive := false, distance := 999, signalCount := 0 }) :=
  ⟨by decide,
   (C7_liveness_sweep 6000 [{ defaultTransmitter with isActive := true }] 0
     (by decide)).1⟩

/-! ## Claim C8 — load validates the stored score -/

/-- **C8.** `loadGameState` validates the stored score against the sane
range `[0, 10000]`: whenever the stored score is negative or larger than
10000, it reinitializes the session to the empty/zero state (score 0, no
found flags, `foundCount` 0) and immediately persists that reinitialized
state back to the EEPROM. -/
theorem C8_load_validation :
    ∀ ee : Eeprom, (ee.score < 0 ∨ ee.score > 10000) →
      (loadGameState ee).1.totalScore = 0 ∧
      (loadGameState ee).1.foundCount = 0 ∧
      (loadGameState ee).1.foundTransmitters = List.replicate MAX_TRANSMITTERS false ∧
      (loadGameState ee).2 = saveGameState (loadGameState ee).1 := by
  intro ee h
  unfold loadGameState
  rw [if_pos h]
  refine ⟨rfl, rfl, rfl, ?_⟩
  show saveGameState _ = saveGameState _
  rfl

/-- Witness for C8 at a concrete input: a stored score of `-5` is
reinitialized and the empty state is persisted. -/
theorem C8_witness :
    ((-5 : Int) < 0 ∨ (-5 : Int) > 10000) ∧
    ((loadGameState ⟨-5, []⟩).1.totalScore = 0 ∧
     (loadGameState ⟨-5, []⟩).1.foundCount = 0 ∧
     (loadGameState ⟨-5, []⟩).1.foundTransmitters =
       List.replicate MAX_TRANSMITTERS false ∧
     (loadGameState ⟨-5, []⟩).2 = saveGameState (loadGameState ⟨-5, []⟩).1) :=
  ⟨Or.inl (by norm_num), C8_load_validation ⟨-5, []⟩ (Or.inl (by norm_num))⟩

/-! ## Claim C10 — the sweep's frame, and stale-smoothing after a loss -/

/-- **C10.** The liveness sweep changes only `isActive`, `distance` and
`signalCount`: `smoothedRSSI`, raw `rssi`, `lastSeen`, `name`, `points`,
`angle` (and `id`) are untouched. Consequently the first sample accepted
after a signal loss is smoothed against the stale pre-timeout
`smoothedRSSI` instead of re-bootstrapping, unless that stale value happens
to equal the `-100` sentinel. -/
theorem C10_sweep_frame :
    ∀ (now : Nat) (t : TransmitterData),
      (sweepOne now t).id = t.id ∧
      (sweepOne now t).name = t.name ∧
      (sweepOne now t).points = t.points ∧
      (sweepOne now t).rssi = t.rssi ∧
      (sweepOne now t).lastSeen = t.lastSeen ∧
      (sweepOne now t).smoothedRSSI = t.smoothedRSSI ∧
      (sweepOne now t).angle = t.angle ∧
      (∀ (est : ℚ → ℚ) (now' index : Nat) (rssi : Int) (data : SignalData)
         (drift : ℚ), t.smoothedRSSI ≠ -100 →
        (updateTransmitterRecord est now' index rssi data drift
            (sweepOne now t)).smoothedRSSI =
          rssiAlpha * (rssi : ℚ) + (1 - rssiAlpha) * t.smoothedRSSI) := by
  intro now t
  have hsm : (sweepOne now t).smoothedRSSI = t.smoothedRSSI := by
    unfold sweepOne; split_ifs <;> rfl
  refine ⟨?_, ?_, ?_, ?_, ?_, hsm, ?_, ?_⟩
  · unfold sweepOne; split_ifs <;> rfl
  · unfold sweepOne; split_ifs <;> rfl
  · unfold sweepOne; split_ifs <;> rfl
  · unfold sweepOne; split_ifs <;> rfl
  · unfold sweepOne; split_ifs <;> rfl
  · unfold sweepOne; split_ifs <;> rfl
  · intro est now' index rssi data drift hne
    show smoothRSSI (sweepOne now t).smoothedRSSI rssi = _
    rw [hsm]
    simp [smoothRSSI, hne]

/-- Witness for C10 at a concrete input: after a sweep, a beacon whose
smoothed RSSI is `-60` keeps it, and the next sample blends with it. -/
theorem C10_witness :
    ({ defaultTransmitter with smoothedRSSI := -60 } :
        TransmitterData).smoothedRSSI ≠ -100 ∧
    (updateTransmitterRecord (fun _ => 1) 7000 0 (-55) ⟨1001, "Alpha", 10⟩ 0
        (sweepOne 6000 { defaultTransmitter with smoothedRSSI := -60 })).smoothedRSSI =
      rssiAlpha * ((-55 : Int) : ℚ) +
        (1 - rssiAlpha) *
          ({ defaultTransmitter with smoothedRSSI := -60 } :
            TransmitterData).smoothedRSSI :=
  ⟨by norm_num,
   (C10_sweep_frame 6000 { defaultTransmitter with smoothedRSSI := -60 }).2.2.2.2.2.2.2
     (fun _ => 1) 7000 0 (-55) ⟨1001, "Alpha", 10⟩ 0 (by norm_num)⟩

/-! ## Characterization lemmas for the discovery check and sample path -/

theorem autoCalibrate_fields (d : ℚ) (gs : GameState) :
    (autoCalibrate d gs).totalScore = gs.totalScore ∧
    (autoCalibrate d gs).foundTransmitters = gs.foundTransmitters ∧
    (autoCalibrate d gs).foundCount = gs.foundCount ∧
    (autoCalibrate d gs).lastResetTime = gs.lastResetTime ∧
    (autoCalibrate d gs).resetMode = gs.resetMode ∧
    (autoCalibrate d gs).sessionStart = gs.sessionStart := by
  unfold autoCalibrate
  split_ifs <;> exact ⟨rfl, rfl, rfl, rfl, rfl, rfl⟩

theorem check_game_cases (now index : Nat) (ts : List TransmitterData)
    (gs : GameState) (ds : List DiscoveryState) (ee : Eeprom) :
    ((checkForNewDiscovery now index ts gs ds ee).1 = gs ∧
     (checkForNewDiscovery now index ts gs ds ee).2.2 = ee) ∨
    ((checkForNewDiscovery now index ts gs ds ee).1 =
       { gs with
         foundTransmitters := gs.foundTransmitters.set index true
         totalScore := gs.totalScore + (ts.getD index defaultTransmitter).points
         foundCount := gs.foundCount + 1 } ∧
     gs.foundTransmitters.getD index false = false) := by
  unfold checkForNewDiscovery
  dsimp only
  split_ifs with h1 h2 h3 h4 h5 h6
  · exact Or.inl ⟨rfl, rfl⟩
  · exact Or.inl ⟨rfl, rfl⟩
  · exact Or.inl ⟨rfl, rfl⟩
  · exact Or.inl ⟨rfl, rfl⟩
  · exact Or.inr ⟨rfl, h4.2⟩
  · exact Or.inl ⟨rfl, rfl⟩
  · exact Or.inl ⟨rfl, rfl⟩

theorem check_game_of_found (now index : Nat) (ts : List TransmitterData)
    (gs : GameState) (ds : List DiscoveryState) (ee : Eeprom)
    (h : gs.foundTransmitters.getD index false = true) :
    (checkForNewDiscovery now index ts gs ds ee).1 = gs ∧
    (checkForNewDiscovery now index ts gs ds ee).2.2 = ee := by
  rcases check_game_cases now index ts gs ds ee with hc | hc
  · exact hc
  · rw [h] at hc
    exact absurd hc.2 (by simp)

/-! ## Claim C4 — points are granted exactly once per beacon -/

/-- **C4.** Once a beacon's slot is in the found set, processing any
further accepted sample for that beacon (qualifying or not) leaves
`totalScore`, `foundCount` and the whole found set unchanged: awarding is
idempotent until an explicit reset. -/
theorem C4_award_idempotent :
    ∀ (est : ℚ → ℚ) (σ : SystemState) (s : SampleEv) (i : Nat),
      findTransmitterIndex σ.transmitters s.data.id = some i →
      foundSlot σ i = true →
      (OnDataReceived est s.now s.rssi s.data s.drift σ).game.totalScore =
        σ.game.totalScore ∧
      (OnDataReceived est s.now s.rssi s.data s.drift σ).game.foundCount =
        σ.game.foundCount ∧
      (OnDataReceived est s.now s.rssi s.data s.drift σ).game.foundTransmitters =
        σ.game.foundTransmitters := by
  intro est σ s i hfind hfound
  unfold OnDataReceived
  by_cases hr : σ.game.resetMode = true
  · rw [if_pos hr]
    exact ⟨rfl, rfl, rfl⟩
  · rw [if_neg hr]
    rw [hfind]
    simp only
    set gs1 := autoCalibrate (updateTransmitterRecord est s.now i s.rssi s.data s.drift
      (σ.transmitters.getD i defaultTransmitter)).distance σ.game with hgs1
    obtain ⟨hsc, hft, hfc, _, _, _⟩ :=
      autoCalibrate_fields (updateTransmitterRecord est s.now i s.rssi s.data s.drift
        (σ.transmitters.getD i defaultTransmitter)).distance σ.game
    have hfound1 : gs1.foundTransmitters.getD i false = true := by
      rw [← hgs1] at hft
      rw [hft]
      exact hfound
    have hmain := (check_game_of_found s.now i
      (σ.transmitters.set i (updateTransmitterRecord est s.now i s.rssi s.data s.drift
        (σ.transmitters.getD i defaultTransmitter)))
      gs1 σ.discovery σ.eeprom hfound1).1
    rw [hmain]
    rw [← hgs1] at hsc hft hfc
    exact ⟨hsc, hfc, hft⟩

/-- Witness for C4 at a concrete input: with beacon 0 (`Alpha`) already
found, a further strong sample for id 1001 changes none of the session
accounting. -/
theorem C4_witness :
    findTransmitterIndex foundAlphaState.transmitters 1001 = some 0 ∧
    foundSlot foundAlphaState 0 = true ∧
    (OnDataReceived (fun _ => 1/5) 6000 (-40) ⟨1001, "Alpha", 10⟩ 0
      foundAlphaState).game.totalScore = foundAlphaState.game.totalScore := by
  refine ⟨by decide, by decide, ?_⟩
  have h := C4_award_idempotent (fun _ => 1/5) foundAlphaState
    ⟨6000, -40, ⟨1001, "Alpha", 10⟩, 0⟩ 0 (by decide) (by decide)
  exact h.1

/-! ## Found-flag block lemmas -/

theorem foldl_set_false_getD_not_mem (rng : List Nat) (l : List Bool) (j : Nat)
    (hj : j ∉ rng) :
    (rng.foldl (fun acc i => acc.set i false) l).getD j false = l.getD j false := by
  induction rng generalizing l with
  | nil => rfl
  | cons r rest ih =>
    have hjr : r ≠ j := fun h => hj (by simp [h])
    have hjrest : j ∉ rest := fun h => hj (by simp [h])
    show (rest.foldl (fun acc i => acc.set i false) (l.set r false)).getD j false = _
    rw [ih (l.set r false) hjrest, getD_set_ne l r j false false hjr]

theorem foldl_set_false_getD_mem (rng : List Nat) (l : List Bool) (j : Nat)
    (hj : j ∈ rng) :
    (rng.foldl (fun acc i => acc.set i false) l).getD j false = false := by
  induction rng generalizing l with
  | nil => simp at hj
  | cons r rest ih =>
    by_cases hmem : j ∈ rest
    · exact ih (l.set r false) hmem
    · have hjr : j = r := by
        rcases List.mem_cons.mp hj with h | h
        · exact h
        · exact absurd h hmem
      subst hjr
      show (rest.foldl (fun acc i => acc.set i false) (l.set j false)).getD j false = false
      rw [foldl_set_false_getD_not_mem rest (l.set j false) j hmem]
      exact getD_set_self_default l j false

theorem foldl_set_false_length (rng : List Nat) (l : List Bool) :
    (rng.foldl (fun acc i => acc.set i false) l).length = l.length := by
  induction rng generalizing l with
  | nil => rfl
  | cons r rest ih =>
    show (rest.foldl (fun acc i => acc.set i false) (l.set r false)).length = _
    rw [ih (l.set r false), List.length_set]

theorem reset_foundSlot (now : Nat) (σ : SystemState) (i : Nat)
    (hi : i < transmitterCount) : foundSlot (handleResetAPI now σ) i = false := by
  show ((List.range transmitterCount).foldl (fun acc i => acc.set i false)
    σ.game.foundTransmitters).getD i false = false
  exact foldl_set_false_getD_mem _ _ _ (List.mem_range.mpr hi)

/-! ## Registry sum lemmas -/

theorem sumIf_set_true (p : Nat → Int) (l : List Bool) (i : Nat)
    (hi : i < 6) (hlen : 6 ≤ l.length) (hfalse : l.getD i false = false) :
    ((List.range 6).map fun k => if (l.set i true).getD k false then p k else 0).sum =
      ((List.range 6).map fun k => if l.getD k false then p k else 0).sum + p i := by
  have e : List.range 6 = [0, 1, 2, 3, 4, 5] := rfl
  rw [e]
  simp only [List.map_cons, List.map_nil, List.sum_cons, List.sum_nil]
  interval_cases i
  · rw [getD_set_self l 0 true false (by omega),
      getD_set_ne l 0 1 true false (by decide), getD_set_ne l 0 2 true false (by decide),
      getD_set_ne l 0 3 true false (by decide), getD_set_ne l 0 4 true false (by decide),
      getD_set_ne l 0 5 true false (by decide), hfalse]
    simp only [if_true, if_neg Bool.false_ne_true]
    ring
  · rw [getD_set_ne l 1 0 true false (by decide),
      getD_set_self l 1 true false (by omega), getD_set_ne l 1 2 true false (by decide),
      getD_set_ne l 1 3 true false (by decide), getD_set_ne l 1 4 true false (by decide),
      getD_set_ne l 1 5 true false (by decide), hfalse]
    simp only [if_true, if_neg Bool.false_ne_true]
    ring
  · rw [getD_set_ne l 2 0 true false (by decide), getD_set_ne l 2 1 true false (by decide),
      getD_set_self l 2 true false (by omega),
      getD_set_ne l 2 3 true false (by decide), getD_set_ne l 2 4 true false (by decide),
      getD_set_ne l 2 5 true false (by decide), hfalse]
    simp only [if_true, if_neg Bool.false_ne_true]
    ring
  · rw [getD_set_ne l 3 0 true false (by decide), getD_set_ne l 3 1 true false (by decide),
      getD_set_ne l 3 2 true false (by decide),
      getD_set_self l 3 true false (by omega), getD_set_ne l 3 4 true false (by decide),
      getD_set_ne l 3 5 true false (by decide), hfalse]
    simp only [if_true, if_neg Bool.false_ne_true]
    ring
  · rw [getD_set_ne l 4 0 true false (by decide), getD_set_ne l 4 1 true false (by decide),
      getD_set_ne l 4 2 true false (by decide), getD_set_ne l 4 3 true false (by decide),
      getD_set_self l 4 true false (by omega),
      getD_set_ne l 4 5 true false (by decide), hfalse]
    simp only [if_true, if_neg Bool.false_ne_true]
    ring
  · rw [getD_set_ne l 5 0 true false (by decide), getD_set_ne l 5 1 true false (by decide),
      getD_set_ne l 5 2 true false (by decide), getD_set_ne l 5 3 true false (by decide),
      getD_set_ne l 5 4 true false (by decide),
      getD_set_self l 5 true false (by omega), hfalse]
    simp only [if_true, if_neg Bool.false_ne_true]
    ring

theorem registryScore_set_true (l : List Bool) (i : Nat) (hi : i < transmitterCount)
    (hlen : transmitterCount ≤ l.length) (hfalse : l.getD i false = false) :
    registryScore (l.set i true) = registryScore l + registryPoints i :=
  sumIf_set_true registryPoints l i hi hlen hfalse

theorem registryFoundCount_set_true (l : List Bool) (i : Nat) (hi : i < transmitterCount)
    (hlen : transmitterCount ≤ l.length) (hfalse : l.getD i false = false) :
    registryFoundCount (l.set i true) = registryFoundCount l + 1 :=
  sumIf_set_true (fun _ => 1) l i hi hlen hfalse

theorem registryScore_of_all_false (l : List Bool)
    (h : ∀ i, i < transmitterCount → l.getD i false = false) :
    registryScore l = 0 := by
  have e : List.range transmitterCount = [0, 1, 2, 3, 4, 5] := rfl
  rw [registryScore, e]
  simp only [List.map_cons, List.map_nil, List.sum_cons, List.sum_nil]
  rw [h 0 (by decide), h 1 (by decide), h 2 (by decide), h 3 (by decide),
    h 4 (by decide), h 5 (by decide)]
  simp

theorem registryFoundCount_of_all_false (l : List Bool)
    (h : ∀ i, i < transmitterCount → l.getD i false = false) :
    registryFoundCount l = 0 := by
  have e : List.range transmitterCount = [0, 1, 2, 3, 4, 5] := rfl
  rw [registryFoundCount, e]
  simp only [List.map_cons, List.map_nil, List.sum_cons, List.sum_nil]
  rw [h 0 (by decide), h 1 (by decide), h 2 (by decide), h 3 (by decide),
    h 4 (by decide), h 5 (by decide)]
  simp

/-! ## Frame lemmas for the per-record updates -/

theorem updateRecord_id (est : ℚ → ℚ) (now index : Nat) (rssi : Int)
    (data : SignalData) (drift : ℚ) (t : TransmitterData) :
    (updateTransmitterRecord est now index rssi data drift t).id = t.id := rfl

theorem updateRecord_points (est : ℚ → ℚ) (now index : Nat) (rssi : Int)
    (data : SignalData) (drift : ℚ) (t : TransmitterData) :
    (updateTransmitterRecord est now index rssi data drift t).points = data.points := rfl

theorem updateRecord_name (est : ℚ → ℚ) (now index : Nat) (rssi : Int)
    (data : SignalData) (drift : ℚ) (t : TransmitterData) :
    (updateTransmitterRecord est now index rssi data drift t).name = data.name := rfl

theorem sweepOne_id (now : Nat) (t : TransmitterData) :
    (sweepOne now t).id = t.id := by
  unfold sweepOne; split_ifs <;> rfl

theorem sweepOne_points (now : Nat) (t : TransmitterData) :
    (sweepOne now t).points = t.points := by
  unfold sweepOne; split_ifs <;> rfl

theorem sweepOne_name (now : Nat) (t : TransmitterData) :
    (sweepOne now t).name = t.name := by
  unfold sweepOne; split_ifs <;> rfl

/-! ## The session accounting invariant and claim C2 -/

theorem reset_establishes_ScoreInv (now : Nat) (σ : SystemState) :
    ScoreInv (handleResetAPI now σ).game := by
  constructor
  · show (0 : Int) = registryScore _
    rw [registryScore_of_all_false _ (fun i hi => reset_foundSlot now σ i hi)]
  · show (0 : Int) = registryFoundCount _
    rw [registryFoundCount_of_all_false _ (fun i hi => reset_foundSlot now σ i hi)]

theorem sessionInv_step (est : ℚ → ℚ) (σ : SystemState) (e : Event)
    (hInv : SessionInv σ) (hEv : EventOk e) : SessionInv (step est σ e) := by
  obtain ⟨⟨hlen, hids⟩, hpts, hflen, hsc, hfc⟩ :
      (σ.transmitters.length = transmitterCount ∧ _) ∧ _ ∧ _ ∧ _ ∧ _ := hInv
  have hInv : SessionInv σ := ⟨⟨hlen, hids⟩, hpts, hflen, hsc, hfc⟩
  cases e with
  | sample s =>
    show SessionInv (OnDataReceived est s.now s.rssi s.data s.drift σ)
    unfold OnDataReceived
    by_cases hr : σ.game.resetMode = true
    · rw [if_pos hr]; exact hInv
    · rw [if_neg hr]
      cases hfind : findTransmitterIndex σ.transmitters s.data.id with
      | none => exact hInv
      | some j =>
        simp only
        obtain ⟨hjlen, hjid⟩ := findTransmitterIndex_some _ _ _ hfind
        have hj6 : j < transmitterCount := by rw [hlen] at hjlen; exact hjlen
        set t' := updateTransmitterRecord est s.now j s.rssi s.data s.drift
          (σ.transmitters.getD j defaultTransmitter) with ht'
        set ts' := σ.transmitters.set j t' with hts'
        have hIdsOk' : IdsOk ts' := by
          constructor
          · rw [hts', List.length_set, hlen]
          · intro i hi
            by_cases hij : i = j
            · subst hij
              rw [hts', getD_set_self _ _ _ _ (by omega), ht', updateRecord_id]
              exact hids i hi
            · rw [hts', getD_set_ne _ _ _ _ _ (fun h => hij h.symm)]
              exact hids i hi
        have hpacket : s.data.points = registryPoints j := by
          apply hEv j hj6
          rw [← hjid]
          exact (hids j hj6).symm
        have hPointsOk' : PointsOk ts' := by
          intro i hi
          by_cases hij : i = j
          · subst hij
            rw [hts', getD_set_self _ _ _ _ (by omega), ht', updateRecord_points]
            exact hpacket
          · rw [hts', getD_set_ne _ _ _ _ _ (fun h => hij h.symm)]
            exact hpts i hi
        set gs1 := autoCalibrate t'.distance σ.game with hgs1
        obtain ⟨hac1, hac2, hac3, _, _, _⟩ := autoCalibrate_fields t'.distance σ.game
        rw [← hgs1] at hac1 hac2 hac3
        rcases check_game_cases s.now j ts' gs1 σ.discovery σ.eeprom with
          ⟨hg, _⟩ | ⟨hg, hfalse⟩
        · refine ⟨hIdsOk', hPointsOk', ?_, ?_, ?_⟩
          · show (checkForNewDiscovery s.now j ts' gs1 σ.discovery σ.eeprom).1.foundTransmitters.length = _
            rw [hg, hac2]
            exact hflen
          · show (checkForNewDiscovery s.now j ts' gs1 σ.discovery σ.eeprom).1.totalScore = registryScore _
            rw [hg, hac1, hac2]
            exact hsc
          · show (checkForNewDiscovery s.now j ts' gs1 σ.discovery σ.eeprom).1.foundCount = registryFoundCount _
            rw [hg, hac3, hac2]
            exact hfc
        · have hts'j : ts'.getD j defaultTransmitter = t' := by
            rw [hts']
            exact getD_set_self _ _ _ _ (by omega)
          have hflen1 : transmitterCount ≤ gs1.foundTransmitters.length := by
            rw [hac2, hflen]
            decide
          have hfalse1 : gs1.foundTransmitters.getD j false = false := hfalse
          refine ⟨hIdsOk', hPointsOk', ?_, ?_, ?_⟩
          · show (checkForNewDiscovery s.now j ts' gs1 σ.discovery σ.eeprom).1.foundTransmitters.length = _
            rw [hg]
            show (gs1.foundTransmitters.set j true).length = _
            rw [List.length_set, hac2]
            exact hflen
          · show (checkForNewDiscovery s.now j ts' gs1 σ.discovery σ.eeprom).1.totalScore = registryScore _
            rw [hg]
            show gs1.totalScore + (ts'.getD j defaultTransmitter).points =
              registryScore (gs1.foundTransmitters.set j true)
            rw [registryScore_set_true _ j hj6 hflen1 hfalse1, hts'j, ht',
              updateRecord_points, hpacket, hac1, hac2, hsc]
          · show (checkForNewDiscovery s.now j ts' gs1 σ.discovery σ.eeprom).1.foundCount = registryFoundCount _
            rw [hg]
            show gs1.foundCount + 1 =
              registryFoundCount (gs1.foundTransmitters.set j true)
            rw [registryFoundCount_set_true _ j hj6 hflen1 hfalse1, hac3, hac2, hfc]
  | sweep now =>
    refine ⟨⟨?_, ?_⟩, ?_, hflen, hsc, hfc⟩
    · show (σ.transmitters.map (sweepOne now)).length = _
      rw [List.length_map]
      exact hlen
    · intro i hi
      show ((σ.transmitters.map (sweepOne now)).getD i defaultTransmitter).id = _
      rw [getD_map_of_lt (sweepOne now) _ _ defaultTransmitter _ (by omega),
        sweepOne_id]
      exact hids i hi
    · intro i hi
      show ((σ.transmitters.map (sweepOne now)).getD i defaultTransmitter).points = _
      rw [getD_map_of_lt (sweepOne now) _ _ defaultTransmitter _ (by omega),
        sweepOne_points]
      exact hpts i hi
  | tick now =>
    show SessionInv (loopTick now σ)
    unfold loopTick
    split_ifs with h
    · exact ⟨⟨hlen, hids⟩, hpts, hflen, hsc, hfc⟩
    · exact hInv
  | reset now =>
    refine ⟨⟨?_, ?_⟩, ?_, ?_, reset_establishes_ScoreInv now σ⟩
    · show (σ.transmitters.map _).length = _
      rw [List.length_map]
      exact hlen
    · intro i hi
      show ((σ.transmitters.map _).getD i defaultTransmitter).id = _
      rw [getD_map_of_lt _ _ _ defaultTransmitter _ (by omega)]
      exact hids i hi
    · intro i hi
      show ((σ.transmitters.map _).getD i defaultTransmitter).points = _
      rw [getD_map_of_lt _ _ _ defaultTransmitter _ (by omega)]
      exact hpts i hi
    · show ((List.range transmitterCount).foldl (fun acc i => acc.set i false)
        σ.game.foundTransmitters).length = _
      rw [foldl_set_false_length]
      exact hflen

/-! ## Claim C2 — the score/found-set accounting invariant -/

/-- **C2 is refuted as stated**: the load event does not establish the
invariant. Loading an EEPROM whose stored score is `7` (inside the sane
range) with no found flags set yields `totalScore = 7` while the found set
is empty, so `totalScore ≠ Σ pointValue over foundSet` right after the
load event. -/
theorem C2_counterexample :
    (loadGameState ⟨7, List.replicate MAX_TRANSMITTERS false⟩).1.totalScore ≠
      registryScore
        (loadGameState ⟨7, List.replicate MAX_TRANSMITTERS false⟩).1.foundTransmitters := by
  decide

/-- **C2 (amended).** After every sample-ingestion, discovery, sweep, tick
and reset event, `totalScore = Σ registryPoints over foundSet` and
`foundCount = |foundSet|` are preserved, provided every slot's `points`
field carries its registry value and ingested packets are points-faithful
(the sketch overwrites `points` from the packet, and discovery awards that
field). A reset establishes the invariant outright, and so does a load
whose stored score fails the range validation; a load of an in-range score
merely copies the stored data and need not establish it. -/
theorem C2_score_invariant :
    (∀ (est : ℚ → ℚ) (σ : SystemState) (e : Event),
       SessionInv σ → EventOk e → SessionInv (step est σ e)) ∧
    (∀ (now : Nat) (σ : SystemState), ScoreInv (handleResetAPI now σ).game) ∧
    (∀ ee : Eeprom, ee.score < 0 ∨ ee.score > 10000 →
       ScoreInv (loadGameState ee).1) := by
  refine ⟨sessionInv_step, reset_establishes_ScoreInv, ?_⟩
  intro ee h
  unfold loadGameState
  rw [if_pos h]
  constructor
  · show (0 : Int) = registryScore (List.replicate MAX_TRANSMITTERS false)
    decide
  · show (0 : Int) = registryFoundCount (List.replicate MAX_TRANSMITTERS false)
    decide

/-- Witness for C2 at a concrete input: the freshly loaded system
satisfies the invariant bundle and a concrete tick preserves it. -/
theorem C2_witness :
    SessionInv (initialSystem emptyEeprom) ∧
    SessionInv (step (fun _ => 1) (initialSystem emptyEeprom) (Event.tick 0)) := by
  have hs : SessionInv (initialSystem emptyEeprom) :=
    ⟨⟨by decide, by decide⟩, by unfold PointsOk; decide,
     by unfold FlagsLenOk; decide, by decide, by decide⟩
  exact ⟨hs, C2_score_invariant.1 (fun _ => 1) (initialSystem emptyEeprom)
    (Event.tick 0) hs trivial⟩

/-! ## Claim C3 — reset is total (up to the cosmetic angle) -/

/-- Helper: while the reset cooldown window is open, no event can change
the score or set a found flag (samples are dropped in reset mode, ticks
cannot end the cooldown early, and nested resets re-establish the
invariant). -/
theorem cooldown_trace_aux (est : ℚ → ℚ) (t0 : Nat) :
    ∀ (tr : List Event) (σ : SystemState),
      σ.game.resetMode = true → t0 ≤ σ.game.lastResetTime →
      σ.game.totalScore = 0 →
      (∀ i, i < transmitterCount → foundSlot σ i = false) →
      (∀ e ∈ tr, t0 ≤ e.time ∧ e.time < t0 + RESET_COOLDOWN) →
      (run est σ tr).game.totalScore = 0 ∧
      (∀ i, i < transmitterCount → foundSlot (run est σ tr) i = false) := by
  intro tr
  induction tr with
  | nil => intro σ _ _ h3 h4 _; exact ⟨h3, h4⟩
  | cons e rest ih =>
    intro σ h1 h2 h3 h4 hb
    have hbe := hb e (by simp)
    have hbrest : ∀ e' ∈ rest, t0 ≤ e'.time ∧ e'.time < t0 + RESET_COOLDOWN :=
      fun e' he' => hb e' (by simp [he'])
    show (run est (step est σ e) rest).game.totalScore = 0 ∧
      ∀ i, i < transmitterCount → foundSlot (run est (step est σ e) rest) i = false
    cases e with
    | sample s =>
      have hdrop : step est σ (Event.sample s) = σ := by
        show OnDataReceived est s.now s.rssi s.data s.drift σ = σ
        unfold OnDataReceived
        rw [if_pos h1]
      rw [hdrop]
      exact ih σ h1 h2 h3 h4 hbrest
    | sweep now =>
      exact ih _ h1 h2 h3 h4 hbrest
    | tick now =>
      have hkeep : step est σ (Event.tick now) = σ := by
        show loopTick now σ = σ
        unfold loopTick
        rw [if_neg]
        rintro ⟨_, hlt⟩
        have hnow : now < t0 + RESET_COOLDOWN := hbe.2
        omega
      rw [hkeep]
      exact ih σ h1 h2 h3 h4 hbrest
    | reset now =>
      refine ih _ rfl ?_ rfl (fun i hi => reset_foundSlot now σ i hi) hbrest
      show t0 ≤ now
      exact hbe.1

/-- **C3 is refuted as stated**: the cosmetic `angle` field is not
restored by a reset. After one accepted sample for beacon 0 (with angle
drift 5), `angle` is `0.25`, and `handleResetAPI` leaves it there, so it
differs from the just-initialized `0`. -/
theorem C3_counterexample :
    ((handleResetAPI 7000 (OnDataReceived (fun _ => 1) 6000 (-60)
        ⟨1001, "Alpha", 10⟩ 5 (initialSystem emptyEeprom))).transmitters.getD 0
        defaultTransmitter).angle ≠
      (initTransmitterDB.getD 0 defaultTransmitter).angle := by
  decide

/-- **C3 (amended).** Immediately after a reset, `totalScore = 0`, the
found set is empty, and every beacon's runtime state (`distance`, `rssi`,
`smoothedRSSI`, `lastSeen`, `isActive`, `signalCount`) equals its
just-initialized default — the cosmetic `angle` alone is left at its
pre-reset value — and no event sequence confined to the cooldown window
(every event strictly earlier than `resetTime + RESET_COOLDOWN`) can
produce a discovery: the score stays 0 and the found set stays empty. -/
theorem C3_reset_amended :
    (∀ (now : Nat) (σ : SystemState),
      (handleResetAPI now σ).game.totalScore = 0 ∧
      (handleResetAPI now σ).game.foundCount = 0 ∧
      (∀ i, i < transmitterCount → foundSlot (handleResetAPI now σ) i = false) ∧
      (∀ i, i < σ.transmitters.length →
        ((handleResetAPI now σ).transmitters.getD i defaultTransmitter).distance = 999 ∧
        ((handleResetAPI now σ).transmitters.getD i defaultTransmitter).rssi = -100 ∧
        ((handleResetAPI now σ).transmitters.getD i defaultTransmitter).smoothedRSSI = -100 ∧
        ((handleResetAPI now σ).transmitters.getD i defaultTransmitter).lastSeen = 0 ∧
        ((handleResetAPI now σ).transmitters.getD i defaultTransmitter).isActive = false ∧
        ((handleResetAPI now σ).transmitters.getD i defaultTransmitter).signalCount = 0 ∧
        ((handleResetAPI now σ).transmitters.getD i defaultTransmitter).angle =
          (σ.transmitters.getD i defaultTransmitter).angle)) ∧
    (∀ (est : ℚ → ℚ) (now : Nat) (σ : SystemState) (tr : List Event),
      (∀ e ∈ tr, now ≤ e.time ∧ e.time < now + RESET_COOLDOWN) →
      (run est (handleResetAPI now σ) tr).game.totalScore = 0 ∧
      (∀ i, i < transmitterCount →
        foundSlot (run est (handleResetAPI now σ) tr) i = false)) := by
  constructor
  · intro now σ
    refine ⟨rfl, rfl, fun i hi => reset_foundSlot now σ i hi, ?_⟩
    intro i hi
    have hmap : (handleResetAPI now σ).transmitters.getD i defaultTransmitter =
        resetRecord (σ.transmitters.getD i defaultTransmitter) :=
      getD_map_of_lt resetRecord σ.transmitters i defaultTransmitter
        defaultTransmitter hi
    rw [hmap]
    exact ⟨rfl, rfl, rfl, rfl, rfl, rfl, rfl⟩
  · intro est now σ tr hb
    exact cooldown_trace_aux est now tr (handleResetAPI now σ) rfl
      (le_refl now) rfl (fun i hi => reset_foundSlot now σ i hi) hb

/-- Witness for C3 at a concrete input: a sample 500 ms after a reset at
time 1000 produces no discovery. -/
theorem C3_witness :
    (∀ e ∈ ([Event.sample ⟨1500, -50, ⟨1001, "Alpha", 10⟩, 0⟩] : List Event),
       1000 ≤ e.time ∧ e.time < 1000 + RESET_COOLDOWN) ∧
    (run (fun _ => 1) (handleResetAPI 1000 (initialSystem emptyEeprom))
       [Event.sample ⟨1500, -50, ⟨1001, "Alpha", 10⟩, 0⟩]).game.totalScore = 0 :=
  ⟨by decide,
   (C3_reset_amended.2 (fun _ => 1) 1000 (initialSystem emptyEeprom)
     [Event.sample ⟨1500, -50, ⟨1001, "Alpha", 10⟩, 0⟩] (by decide)).1⟩

/-! ## Claim C9 — registry immutability -/

/-- Helper: every event handler preserves the slot identities. -/
theorem ids_step_aux (est : ℚ → ℚ) (σ : SystemState) (e : Event)
    (hIds : IdsOk σ.transmitters) : IdsOk (step est σ e).transmitters := by
  obtain ⟨hlen, hids⟩ := hIds
  cases e with
  | sample s =>
    show IdsOk (OnDataReceived est s.now s.rssi s.data s.drift σ).transmitters
    unfold OnDataReceived
    by_cases hr : σ.game.resetMode = true
    · rw [if_pos hr]; exact ⟨hlen, hids⟩
    · rw [if_neg hr]
      cases hfind : findTransmitterIndex σ.transmitters s.data.id with
      | none => exact ⟨hlen, hids⟩
      | some j =>
        obtain ⟨hjlen, _⟩ := findTransmitterIndex_some _ _ _ hfind
        constructor
        · show (σ.transmitters.set j _).length = _
          rw [List.length_set]; exact hlen
        · intro i hi
          show ((σ.transmitters.set j _).getD i defaultTransmitter).id = _
          by_cases hij : i = j
          · subst hij
            rw [getD_set_self _ _ _ _ (by omega), updateRecord_id]
            exact hids i hi
          · rw [getD_set_ne _ _ _ _ _ (fun h => hij h.symm)]
            exact hids i hi
  | sweep now =>
    constructor
    · show (σ.transmitters.map (sweepOne now)).length = _
      rw [List.length_map]; exact hlen
    · intro i hi
      show ((σ.transmitters.map (sweepOne now)).getD i defaultTransmitter).id = _
      rw [getD_map_of_lt (sweepOne now) _ _ defaultTransmitter _ (by omega),
        sweepOne_id]
      exact hids i hi
  | tick now =>
    show IdsOk (loopTick now σ).transmitters
    unfold loopTick
    split_ifs <;> exact ⟨hlen, hids⟩
  | reset now =>
    constructor
    · show (σ.transmitters.map resetRecord).length = _
      rw [List.length_map]; exact hlen
    · intro i hi
      show ((σ.transmitters.map resetRecord).getD i defaultTransmitter).id = _
      rw [getD_map_of_lt resetRecord _ _ defaultTransmitter _ (by omega)]
      exact hids i hi

/-- Helper: every event handler preserves registry-faithful `points` and
`name` fields, provided sample packets carry the registry values. -/
theorem registry_step_aux (est : ℚ → ℚ) (σ : SystemState) (e : Event)
    (hIds : IdsOk σ.transmitters) (hPts : PointsOk σ.transmitters)
    (hNms : NamesOk σ.transmitters)
    (hPkt : ∀ s, e = Event.sample s → PacketMatchesRegistry s.data) :
    PointsOk (step est σ e).transmitters ∧ NamesOk (step est σ e).transmitters := by
  obtain ⟨hlen, hids⟩ := hIds
  cases e with
  | sample s =>
    have hpm : PacketMatchesRegistry s.data := hPkt s rfl
    show PointsOk (OnDataReceived est s.now s.rssi s.data s.drift σ).transmitters ∧
      NamesOk (OnDataReceived est s.now s.rssi s.data s.drift σ).transmitters
    unfold OnDataReceived
    by_cases hr : σ.game.resetMode = true
    · rw [if_pos hr]; exact ⟨hPts, hNms⟩
    · rw [if_neg hr]
      cases hfind : findTransmitterIndex σ.transmitters s.data.id with
      | none => exact ⟨hPts, hNms⟩
      | some j =>
        obtain ⟨hjlen, hjid⟩ := findTransmitterIndex_some _ _ _ hfind
        have hj6 : j < transmitterCount := by omega
        have hmatch := hpm j hj6 (by rw [← hjid]; exact (hids j hj6).symm)
        constructor
        · intro i hi
          show ((σ.transmitters.set j _).getD i defaultTransmitter).points = _
          by_cases hij : i = j
          · subst hij
            rw [getD_set_self _ _ _ _ (by omega), updateRecord_points]
            exact hmatch.2
          · rw [getD_set_ne _ _ _ _ _ (fun h => hij h.symm)]
            exact hPts i hi
        · intro i hi
          show ((σ.transmitters.set j _).getD i defaultTransmitter).name = _
          by_cases hij : i = j
          · subst hij
            rw [getD_set_self _ _ _ _ (by omega), updateRecord_name]
            exact hmatch.1
          · rw [getD_set_ne _ _ _ _ _ (fun h => hij h.symm)]
            exact hNms i hi
  | sweep now =>
    constructor
    · intro i hi
      show ((σ.transmitters.map (sweepOne now)).getD i defaultTransmitter).points = _
      rw [getD_map_of_lt (sweepOne now) _ _ defaultTransmitter _ (by omega),
        sweepOne_points]
      exact hPts i hi
    · intro i hi
      show ((σ.transmitters.map (sweepOne now)).getD i defaultTransmitter).name = _
      rw [getD_map_of_lt (sweepOne now) _ _ defaultTransmitter _ (by omega),
        sweepOne_name]
      exact hNms i hi
  | tick now =>
    show PointsOk (loopTick now σ).transmitters ∧ NamesOk (loopTick now σ).transmitters
    unfold loopTick
    split_ifs <;> exact ⟨hPts, hNms⟩
  | reset now =>
    constructor
    · intro i hi
      show ((σ.transmitters.map resetRecord).getD i defaultTransmitter).points = _
      rw [getD_map_of_lt resetRecord _ _ defaultTransmitter _ (by omega)]
      exact hPts i hi
    · intro i hi
      show ((σ.transmitters.map resetRecord).getD i defaultTransmitter).name = _
      rw [getD_map_of_lt resetRecord _ _ defaultTransmitter _ (by omega)]
      exact hNms i hi

/-- **C9 is refuted as stated**: `updateTransmitterData` overwrites `name`
and `points` from the incoming packet, so a packet for id 1001 carrying
999 points changes slot 0's `pointValue` away from the configured 10. -/
theorem C9_counterexample :
    ((OnDataReceived (fun _ => 1) 6000 (-60) ⟨1001, "Impostor", 999⟩ 0
        (initialSystem emptyEeprom)).transmitters.getD 0
        defaultTransmitter).points ≠ registryPoints 0 := by
  decide

/-- **C9 (amended).** Slot identities are immutable under every operation
(sample ingestion, sweep, tick, reset). `displayName` and `pointValue`,
however, are rewritten from each accepted packet, so they stay at the
configured values only under the assumption that every packet carries its
beacon's configured name and point value; sweeps, ticks and resets never
touch them. -/
theorem C9_registry_immutability :
    (∀ (est : ℚ → ℚ) (σ : SystemState) (e : Event),
       IdsOk σ.transmitters → IdsOk (step est σ e).transmitters) ∧
    (∀ (est : ℚ → ℚ) (σ : SystemState) (e : Event),
       IdsOk σ.transmitters → PointsOk σ.transmitters → NamesOk σ.transmitters →
       (∀ s, e = Event.sample s → PacketMatchesRegistry s.data) →
       PointsOk (step est σ e).transmitters ∧ NamesOk (step est σ e).transmitters) :=
  ⟨ids_step_aux, registry_step_aux⟩

/-- Witness for C9 at a concrete input: a faithful `Alpha` packet
preserves the registry fields. -/
theorem C9_witness :
    IdsOk (initialSystem emptyEeprom).transmitters ∧
    PointsOk (step (fun _ => 1) (initialSystem emptyEeprom)
      (Event.sample ⟨6000, -60, ⟨1001, "Alpha", 10⟩, 0⟩)).transmitters := by
  have hIds : IdsOk (initialSystem emptyEeprom).transmitters := ⟨by decide, by decide⟩
  have h := C9_registry_immutability.2 (fun _ => 1) (initialSystem emptyEeprom)
    (Event.sample ⟨6000, -60, ⟨1001, "Alpha", 10⟩, 0⟩) hIds
    (by unfold PointsOk; decide) (by unfold NamesOk; decide)
    (by intro s hs; cases hs; unfold PacketMatchesRegistry; decide)
  exact ⟨hIds, h.1⟩

/-! ## Trace prefix lemmas for C1 -/

theorem take_append_le {α : Type} (l l2 : List α) (m : Nat) (h : m ≤ l.length) :
    (l ++ l2).take m = l.take m := by
  induction l generalizing m with
  | nil =>
    have : m = 0 := by simpa using h
    subst this
    rfl
  | cons x xs ih =>
    cases m with
    | zero => rfl
    | succ k =>
      show x :: (xs ++ l2).take k = x :: xs.take k
      rw [ih k (by simpa using h)]

theorem getD_append_lt {α : Type} (l l2 : List α) (m : Nat) (d : α)
    (h : m < l.length) : (l ++ l2).getD m d = l.getD m d := by
  induction l generalizing m with
  | nil => simp at h
  | cons x xs ih =>
    cases m with
    | zero => rfl
    | succ k => exact ih k (by simpa using h)

theorem getD_append_self {α : Type} (l : List α) (a : α) (d : α) :
    (l ++ [a]).getD l.length d = a := by
  induction l with
  | nil => rfl
  | cons x xs ih => exact ih

theorem getD_take_lt {α : Type} (l : List α) (m k : Nat) (d : α)
    (h : m < k) : (l.take k).getD m d = l.getD m d := by
  induction l generalizing m k with
  | nil => simp
  | cons x xs ih =>
    cases k with
    | zero => omega
    | succ k' =>
      cases m with
      | zero => rfl
      | succ m' => exact ih m' k' (by omega)

theorem getD_replicate {α : Type} (n : Nat) (a : α) (i : Nat) :
    (List.replicate n a).getD i a = a := by
  induction n generalizing i with
  | zero => rfl
  | succ k ih =>
    cases i with
    | zero => rfl
    | succ j => exact ih j

theorem runSamples_append (est : ℚ → ℚ) (σ0 : SystemState) (tr : List SampleEv)
    (s : SampleEv) :
    runSamples est σ0 (tr ++ [s]) =
      OnDataReceived est s.now s.rssi s.data s.drift (runSamples est σ0 tr) := by
  unfold runSamples
  rw [List.foldl_append]
  rfl

theorem stateAt_append_le (est : ℚ → ℚ) (σ0 : SystemState) (tr : List SampleEv)
    (s : SampleEv) (m : Nat) (h : m ≤ tr.length) :
    stateAt est σ0 (tr ++ [s]) m = stateAt est σ0 tr m := by
  unfold stateAt
  rw [take_append_le tr [s] m h]

theorem stateAt_length (est : ℚ → ℚ) (σ0 : SystemState) (tr : List SampleEv) :
    stateAt est σ0 tr tr.length = runSamples est σ0 tr := by
  unfold stateAt
  rw [List.take_length]

theorem qualAt_append_lt (est : ℚ → ℚ) (σ0 : SystemState) (tr : List SampleEv)
    (s : SampleEv) (m : Nat) (h : m < tr.length) :
    qualAt est σ0 (tr ++ [s]) m = qualAt est σ0 tr m := by
  unfold qualAt
  rw [stateAt_append_le est σ0 tr s m (by omega), getD_append_lt tr [s] m _ h]

theorem qualAt_append_self (est : ℚ → ℚ) (σ0 : SystemState) (tr : List SampleEv)
    (s : SampleEv) :
    qualAt est σ0 (tr ++ [s]) tr.length = qualifiesB est (runSamples est σ0 tr) s := by
  unfold qualAt
  rw [stateAt_append_le est σ0 tr s tr.length (le_refl _), stateAt_length,
    getD_append_self]

theorem qualAt_take (est : ℚ → ℚ) (σ0 : SystemState) (tr : List SampleEv)
    (k m : Nat) (h : m < k) :
    qualAt est σ0 (tr.take k) m = qualAt est σ0 tr m := by
  unfold qualAt
  have h1 : (tr.take k).take m = tr.take m := by
    rw [List.take_take]
    congr 1
    omega
  unfold stateAt
  rw [h1, getD_take_lt tr m k _ h]

theorem timeAt_append_lt (tr : List SampleEv) (s : SampleEv) (m : Nat)
    (h : m < tr.length) : timeAt (tr ++ [s]) m = timeAt tr m := by
  unfold timeAt
  rw [getD_append_lt tr [s] m _ h]

theorem timeAt_append_self (tr : List SampleEv) (s : SampleEv) :
    timeAt (tr ++ [s]) tr.length = s.now := by
  unfold timeAt
  rw [getD_append_self]

theorem timeAt_take (tr : List SampleEv) (k m : Nat) (h : m < k) :
    timeAt (tr.take k) m = timeAt tr m := by
  unfold timeAt
  rw [getD_take_lt tr m k _ h]

/-! ## Registry lookup resolution for C1 -/

theorem findGo_congr_ids (id : Nat) :
    ∀ (l1 l2 : List TransmitterData) (i0 : Nat),
      l1.length = l2.length →
      (∀ j, j < l1.length →
        (l1.getD j defaultTransmitter).id = (l2.getD j defaultTransmitter).id) →
      findTransmitterIndexGo id l1 i0 = findTransmitterIndexGo id l2 i0 := by
  intro l1
  induction l1 with
  | nil =>
    intro l2 i0 hlen _
    cases l2 with
    | nil => rfl
    | cons y ys => simp at hlen
  | cons x xs ih =>
    intro l2 i0 hlen hids
    cases l2 with
    | nil => simp at hlen
    | cons y ys =>
      have hxy : x.id = y.id := hids 0 (by simp)
      show (if x.id = id then some i0 else findTransmitterIndexGo id xs (i0 + 1)) = _
      rw [hxy]
      by_cases hy : y.id = id
      · rw [if_pos hy]
        exact (if_pos hy).symm
      · rw [if_neg hy]
        rw [show findTransmitterIndexGo id (y :: ys) i0 =
          if y.id = id then some i0 else findTransmitterIndexGo id ys (i0 + 1) from rfl]
        rw [if_neg hy]
        exact ih ys (i0 + 1) (by simpa using hlen) (fun j hj => hids (j + 1) (by simpa using hj))

theorem init_ids : ∀ j, j < transmitterCount →
    (initTransmitterDB.getD j defaultTransmitter).id = registryId j := by
  decide

theorem find_resolves (ts : List TransmitterData) (i : Nat)
    (hi : i < transmitterCount) (hlen : ts.length = transmitterCount)
    (hids : ∀ j, j < transmitterCount →
      (ts.getD j defaultTransmitter).id = registryId j) :
    findTransmitterIndex ts (registryId i) = some i := by
  have hcongr : findTransmitterIndex ts (registryId i) =
      findTransmitterIndex initTransmitterDB (registryId i) := by
    apply findGo_congr_ids
    · rw [hlen]; rfl
    · intro j hj
      rw [hlen] at hj
      rw [hids j hj, init_ids j hj]
  rw [hcongr]
  have hi6 : i < 6 := hi
  interval_cases i <;> decide

/-! ## The sample-step characterization for C1 -/

theorem qualifiesB_iff (est : ℚ → ℚ) (σ : SystemState) (s : SampleEv) (i : Nat)
    (hfind : findTransmitterIndex σ.transmitters s.data.id = some i) :
    qualifiesB est σ s = true ↔
      (σ.game.resetMode = false ∧
       RESET_COOLDOWN ≤ s.now - σ.game.lastResetTime ∧
       MIN_SIGNAL_COUNT ≤ (updateTransmitterRecord est s.now i s.rssi s.data s.drift
         (σ.transmitters.getD i defaultTransmitter)).signalCount ∧
       DISCOVERY_RSSI_THRESHOLD ≤ (updateTransmitterRecord est s.now i s.rssi s.data
         s.drift (σ.transmitters.getD i defaultTransmitter)).smoothedRSSI ∧
       (updateTransmitterRecord est s.now i s.rssi s.data s.drift
         (σ.transmitters.getD i defaultTransmitter)).distance ≤ DISCOVERY_RANGE ∧
       σ.game.foundTransmitters.getD i false = false) := by
  unfold qualifiesB
  rw [hfind]
  simp only [Bool.and_eq_true, Bool.not_eq_true', decide_eq_true_eq, beq_iff_eq]
  tauto

theorem check_ds_length (now index : Nat) (ts : List TransmitterData)
    (gs : GameState) (ds : List DiscoveryState) (ee : Eeprom) :
    (checkForNewDiscovery now index ts gs ds ee).2.1.length = ds.length := by
  unfold checkForNewDiscovery
  dsimp only
  split_ifs <;> simp [List.length_set]

theorem sample_step_char (est : ℚ → ℚ) (σ : SystemState) (s : SampleEv) (i : Nat)
    (hi : i < transmitterCount)
    (h1 : σ.game.resetMode = false) (h2 : σ.game.lastResetTime = 0)
    (h3 : σ.transmitters.length = transmitterCount)
    (h4 : ∀ j, j < transmitterCount →
      (σ.transmitters.getD j defaultTransmitter).id = registryId j)
    (h5 : σ.discovery.length = MAX_TRANSMITTERS)
    (h6 : σ.game.foundTransmitters.length = MAX_TRANSMITTERS)
    (hid : s.data.id = registryId i) :
    ((OnDataReceived est s.now s.rssi s.data s.drift σ).game.resetMode = false ∧
     (OnDataReceived est s.now s.rssi s.data s.drift σ).game.lastResetTime = 0 ∧
     (OnDataReceived est s.now s.rssi s.data s.drift σ).transmitters.length =
       transmitterCount ∧
     (∀ j, j < transmitterCount →
       ((OnDataReceived est s.now s.rssi s.data s.drift σ).transmitters.getD j
         defaultTransmitter).id = registryId j) ∧
     (OnDataReceived est s.now s.rssi s.data s.drift σ).discovery.length =
       MAX_TRANSMITTERS ∧
     (OnDataReceived est s.now s.rssi s.data s.drift σ).game.foundTransmitters.length =
       MAX_TRANSMITTERS) ∧
    ((s.now < RESET_COOLDOWN ∧ qualifiesB est σ s = false ∧
      foundSlot (OnDataReceived est s.now s.rssi s.data s.drift σ) i = foundSlot σ i ∧
      discSlot (OnDataReceived est s.now s.rssi s.data s.drift σ) i = discSlot σ i) ∨
     (RESET_COOLDOWN ≤ s.now ∧ qualifiesB est σ s = false ∧
      foundSlot (OnDataReceived est s.now s.rssi s.data s.drift σ) i = foundSlot σ i ∧
      discSlot (OnDataReceived est s.now s.rssi s.data s.drift σ) i = ⟨false, 0⟩) ∨
     (RESET_COOLDOWN ≤ s.now ∧ qualifiesB est σ s = true ∧
      (discSlot σ i).inProgress = false ∧ foundSlot σ i = false ∧
      foundSlot (OnDataReceived est s.now s.rssi s.data s.drift σ) i = false ∧
      discSlot (OnDataReceived est s.now s.rssi s.data s.drift σ) i = ⟨true, s.now⟩) ∨
     (RESET_COOLDOWN ≤ s.now ∧ qualifiesB est σ s = true ∧
      (discSlot σ i).inProgress = true ∧
      SIGNAL_STABILITY_PERIOD ≤ s.now - (discSlot σ i).timer ∧
      foundSlot σ i = false ∧
      foundSlot (OnDataReceived est s.now s.rssi s.data s.drift σ) i = true ∧
      discSlot (OnDataReceived est s.now s.rssi s.data s.drift σ) i =
        ⟨false, (discSlot σ i).timer⟩) ∨
     (RESET_COOLDOWN ≤ s.now ∧ qualifiesB est σ s = true ∧
      (discSlot σ i).inProgress = true ∧
      s.now - (discSlot σ i).timer < SIGNAL_STABILITY_PERIOD ∧
      foundSlot σ i = false ∧
      foundSlot (OnDataReceived est s.now s.rssi s.data s.drift σ) i = false ∧
      discSlot (OnDataReceived est s.now s.rssi s.data s.drift σ) i = discSlot σ i)) := by
  have hfind : findTransmitterIndex σ.transmitters s.data.id = some i := by
    rw [hid]
    exact find_resolves σ.transmitters i hi h3 h4
  have hqiff := qualifiesB_iff est σ s i hfind
  set t' := updateTransmitterRecord est s.now i s.rssi s.data s.drift
    (σ.transmitters.getD i defaultTransmitter) with ht'
  set gs1 := autoCalibrate t'.distance σ.game with hgs1
  set ts' := σ.transmitters.set i t' with hts'
  obtain ⟨hacS, hacF, hacC, hacL, hacR, _⟩ := autoCalibrate_fields t'.distance σ.game
  rw [← hgs1] at hacS hacF hacC hacL hacR
  have hσ' : OnDataReceived est s.now s.rssi s.data s.drift σ =
      { transmitters := ts'
        game := (checkForNewDiscovery s.now i ts' gs1 σ.discovery σ.eeprom).1
        discovery := (checkForNewDiscovery s.now i ts' gs1 σ.discovery σ.eeprom).2.1
        eeprom := (checkForNewDiscovery s.now i ts' gs1 σ.discovery σ.eeprom).2.2 } := by
    unfold OnDataReceived
    rw [if_neg (by rw [h1]; simp), hfind]
  have hiM : i < MAX_TRANSMITTERS := lt_of_lt_of_le hi (by decide)
  have hts'i : ts'.getD i defaultTransmitter = t' := by
    rw [hts']
    exact getD_set_self _ _ _ _ (by omega)
  have hIds := ids_step_aux est σ (Event.sample s) ⟨h3, h4⟩
  have hsanity :
      (OnDataReceived est s.now s.rssi s.data s.drift σ).game.resetMode = false ∧
      (OnDataReceived est s.now s.rssi s.data s.drift σ).game.lastResetTime = 0 ∧
      (OnDataReceived est s.now s.rssi s.data s.drift σ).transmitters.length =
        transmitterCount ∧
      (∀ j, j < transmitterCount →
        ((OnDataReceived est s.now s.rssi s.data s.drift σ).transmitters.getD j
          defaultTransmitter).id = registryId j) ∧
      (OnDataReceived est s.now s.rssi s.data s.drift σ).discovery.length =
        MAX_TRANSMITTERS ∧
      (OnDataReceived est s.now s.rssi s.data s.drift σ).game.foundTransmitters.length =
        MAX_TRANSMITTERS := by
    refine ⟨?_, ?_, hIds.1, hIds.2, ?_, ?_⟩
    · rw [hσ']
      rcases check_game_cases s.now i ts' gs1 σ.discovery σ.eeprom with ⟨hg, _⟩ | ⟨hg, _⟩
      · show (checkForNewDiscovery s.now i ts' gs1 σ.discovery σ.eeprom).1.resetMode = false
        rw [hg, hacR]
        exact h1
      · show (checkForNewDiscovery s.now i ts' gs1 σ.discovery σ.eeprom).1.resetMode = false
        rw [hg]
        show gs1.resetMode = false
        rw [hacR]
        exact h1
    · rw [hσ']
      rcases check_game_cases s.now i ts' gs1 σ.discovery σ.eeprom with ⟨hg, _⟩ | ⟨hg, _⟩
      · show (checkForNewDiscovery s.now i ts' gs1 σ.discovery σ.eeprom).1.lastResetTime = 0
        rw [hg, hacL]
        exact h2
      · show (checkForNewDiscovery s.now i ts' gs1 σ.discovery σ.eeprom).1.lastResetTime = 0
        rw [hg]
        show gs1.lastResetTime = 0
        rw [hacL]
        exact h2
    · rw [hσ']
      show (checkForNewDiscovery s.now i ts' gs1 σ.discovery σ.eeprom).2.1.length = _
      rw [check_ds_length]
      exact h5
    · rw [hσ']
      rcases check_game_cases s.now i ts' gs1 σ.discovery σ.eeprom with ⟨hg, _⟩ | ⟨hg, _⟩
      · show (checkForNewDiscovery s.now i ts' gs1 σ.discovery σ.eeprom).1.foundTransmitters.length = _
        rw [hg, hacF]
        exact h6
      · show (checkForNewDiscovery s.now i ts' gs1 σ.discovery σ.eeprom).1.foundTransmitters.length = _
        rw [hg]
        show (gs1.foundTransmitters.set i true).length = _
        rw [List.length_set, hacF]
        exact h6
  refine ⟨hsanity, ?_⟩
  by_cases hb : s.now < RESET_COOLDOWN
  · -- blocked by the cooldown gate inside checkForNewDiscovery
    left
    have hcheck : checkForNewDiscovery s.now i ts' gs1 σ.discovery σ.eeprom =
        (gs1, σ.discovery, σ.eeprom) := by
      unfold checkForNewDiscovery
      rw [if_pos]
      right
      rw [hacL]
      omega
    refine ⟨hb, ?_, ?_, ?_⟩
    · rw [Bool.eq_false_iff]
      intro hq
      obtain ⟨_, hcool, _⟩ := hqiff.mp hq
      rw [h2] at hcool
      omega
    · show foundSlot _ i = foundSlot σ i
      rw [hσ']
      show (checkForNewDiscovery s.now i ts' gs1 σ.discovery σ.eeprom).1.foundTransmitters.getD i false = _
      rw [hcheck]
      show gs1.foundTransmitters.getD i false = _
      rw [hacF]
      rfl
    · show discSlot _ i = discSlot σ i
      rw [hσ']
      show (checkForNewDiscovery s.now i ts' gs1 σ.discovery σ.eeprom).2.1.getD i ⟨false, 0⟩ = _
      rw [hcheck]
      rfl
  · have hcool : RESET_COOLDOWN ≤ s.now := by omega
    have hgate : ¬(gs1.resetMode = true ∨ s.now - gs1.lastResetTime < RESET_COOLDOWN) := by
      rw [hacR, hacL, h1, h2]
      simp
      omega
    by_cases hq : qualifiesB est σ s = true
    · obtain ⟨_, _, hcount, hrssi, hdist, hfoundF⟩ := hqiff.mp hq
      have hcond3 : t'.distance ≤ DISCOVERY_RANGE ∧
          gs1.foundTransmitters.getD i false = false := by
        rw [hacF]
        exact ⟨hdist, hfoundF⟩
      by_cases hip : (discSlot σ i).inProgress = true
      · by_cases hfire : SIGNAL_STABILITY_PERIOD ≤ s.now - (discSlot σ i).timer
        · -- fire: the beacon is found
          right; right; right; left
          have hcheck : checkForNewDiscovery s.now i ts' gs1 σ.discovery σ.eeprom =
              ({ gs1 with
                  foundTransmitters := gs1.foundTransmitters.set i true
                  totalScore := gs1.totalScore + t'.points
                  foundCount := gs1.foundCount + 1 },
               σ.discovery.set i ⟨false, (discSlot σ i).timer⟩,
               saveGameState { gs1 with
                  foundTransmitters := gs1.foundTransmitters.set i true
                  totalScore := gs1.totalScore + t'.points
                  foundCount := gs1.foundCount + 1 }) := by
            unfold checkForNewDiscovery
            rw [if_neg hgate]
            dsimp only
            rw [hts'i, show σ.discovery.getD i ⟨false, 0⟩ = discSlot σ i from rfl]
            rw [if_neg (by omega), if_neg (not_lt.mpr hrssi), if_pos hcond3,
              if_neg (by simp [hip]), if_pos hfire]
          refine ⟨hcool, hq, hip, hfire, hfoundF, ?_, ?_⟩
          · show foundSlot _ i = true
            rw [hσ']
            show (checkForNewDiscovery s.now i ts' gs1 σ.discovery σ.eeprom).1.foundTransmitters.getD i false = true
            rw [hcheck]
            show (gs1.foundTransmitters.set i true).getD i false = true
            apply getD_set_self
            rw [hacF, h6]
            exact hiM
          · show discSlot _ i = _
            rw [hσ']
            show (checkForNewDiscovery s.now i ts' gs1 σ.discovery σ.eeprom).2.1.getD i ⟨false, 0⟩ = _
            rw [hcheck]
            show (σ.discovery.set i ⟨false, (discSlot σ i).timer⟩).getD i ⟨false, 0⟩ = _
            apply getD_set_self
            rw [h5]
            exact hiM
        · -- conditions hold but the stability window is not yet spanned
          right; right; right; right
          have hcheck : checkForNewDiscovery s.now i ts' gs1 σ.discovery σ.eeprom =
              (gs1, σ.discovery, σ.eeprom) := by
            unfold checkForNewDiscovery
            rw [if_neg hgate]
            dsimp only
            rw [hts'i, show σ.discovery.getD i ⟨false, 0⟩ = discSlot σ i from rfl]
            rw [if_neg (by omega), if_neg (not_lt.mpr hrssi), if_pos hcond3,
              if_neg (by simp [hip]), if_neg hfire]
          refine ⟨hcool, hq, hip, by omega, hfoundF, ?_, ?_⟩
          · show foundSlot _ i = false
            rw [hσ']
            show (checkForNewDiscovery s.now i ts' gs1 σ.discovery σ.eeprom).1.foundTransmitters.getD i false = false
            rw [hcheck]
            show gs1.foundTransmitters.getD i false = false
            rw [hacF]
            exact hfoundF
          · show discSlot _ i = discSlot σ i
            rw [hσ']
            show (checkForNewDiscovery s.now i ts' gs1 σ.discovery σ.eeprom).2.1.getD i ⟨false, 0⟩ = _
            rw [hcheck]
            rfl
      · -- candidacy starts now
        right; right; left
        have hipf : (discSlot σ i).inProgress = false := by
          rwa [Bool.not_eq_true] at hip
        have hcheck : checkForNewDiscovery s.now i ts' gs1 σ.discovery σ.eeprom =
            (gs1, σ.discovery.set i ⟨true, s.now⟩, σ.eeprom) := by
          unfold checkForNewDiscovery
          rw [if_neg hgate]
          dsimp only
          rw [hts'i, show σ.discovery.getD i ⟨false, 0⟩ = discSlot σ i from rfl]
          rw [if_neg (by omega), if_neg (not_lt.mpr hrssi), if_pos hcond3,
            if_pos hipf]
        refine ⟨hcool, hq, hipf, hfoundF, ?_, ?_⟩
        · show foundSlot _ i = false
          rw [hσ']
          show (checkForNewDiscovery s.now i ts' gs1 σ.discovery σ.eeprom).1.foundTransmitters.getD i false = false
          rw [hcheck]
          show gs1.foundTransmitters.getD i false = false
          rw [hacF]
          exact hfoundF
        · show discSlot _ i = _
          rw [hσ']
          show (checkForNewDiscovery s.now i ts' gs1 σ.discovery σ.eeprom).2.1.getD i ⟨false, 0⟩ = _
          rw [hcheck]
          show (σ.discovery.set i ⟨true, s.now⟩).getD i ⟨false, 0⟩ = _
          apply getD_set_self
          rw [h5]
          exact hiM
    · -- some precondition fails: the candidacy timer is discarded
      right; left
      have hqf : qualifiesB est σ s = false := by
        rwa [Bool.not_eq_true] at hq
      have hcheck : checkForNewDiscovery s.now i ts' gs1 σ.discovery σ.eeprom =
          (gs1, σ.discovery.set i ⟨false, 0⟩, σ.eeprom) := by
        unfold checkForNewDiscovery
        rw [if_neg hgate]
        dsimp only
        rw [hts'i]
        split_ifs with hc1 hc2 hc3 hc4 hc5
        · rfl
        · rfl
        · exact absurd (hqiff.mpr ⟨h1, by rw [h2]; omega, by omega, not_lt.mp hc2,
            hc3.1, by rw [← hacF]; exact hc3.2⟩) hq
        · exact absurd (hqiff.mpr ⟨h1, by rw [h2]; omega, by omega, not_lt.mp hc2,
            hc3.1, by rw [← hacF]; exact hc3.2⟩) hq
        · exact absurd (hqiff.mpr ⟨h1, by rw [h2]; omega, by omega, not_lt.mp hc2,
            hc3.1, by rw [← hacF]; exact hc3.2⟩) hq
        · rfl
      refine ⟨hcool, hqf, ?_, ?_⟩
      · show foundSlot _ i = foundSlot σ i
        rw [hσ']
        show (checkForNewDiscovery s.now i ts' gs1 σ.discovery σ.eeprom).1.foundTransmitters.getD i false = _
        rw [hcheck]
        show gs1.foundTransmitters.getD i false = _
        rw [hacF]
        rfl
      · show discSlot _ i = ⟨false, 0⟩
        rw [hσ']
        show (checkForNewDiscovery s.now i ts' gs1 σ.discovery σ.eeprom).2.1.getD i ⟨false, 0⟩ = _
        rw [hcheck]
        show (σ.discovery.set i ⟨false, 0⟩).getD i ⟨false, 0⟩ = _
        exact getD_set_self_default _ _ _

/-! ## The C1 master invariant -/

theorem C1_master (est : ℚ → ℚ) (i : Nat) (hi : i < transmitterCount) :
    ∀ tr : List SampleEv, TraceForBeacon i tr → MonoTimes tr → C1Inv est i tr := by
  intro tr
  induction tr using List.reverseRecOn with
  | nil =>
    intro _ _
    have hfs : foundSlot (runSamples est (initialSystem emptyEeprom) []) i = false := by
      show (initialSystem emptyEeprom).game.foundTransmitters.getD i false = false
      rw [show (initialSystem emptyEeprom).game.foundTransmitters =
        List.replicate MAX_TRANSMITTERS false from by decide]
      exact getD_replicate _ _ _
    have hds : discSlot (runSamples est (initialSystem emptyEeprom) []) i = ⟨false, 0⟩ := by
      show (List.replicate MAX_TRANSMITTERS
        (⟨false, 0⟩ : DiscoveryState)).getD i ⟨false, 0⟩ = ⟨false, 0⟩
      exact getD_replicate _ _ _
    refine ⟨rfl, rfl,
      by show (initialSystem emptyEeprom).transmitters.length = transmitterCount; decide,
      init_ids,
      by show (initialSystem emptyEeprom).discovery.length = MAX_TRANSMITTERS; decide,
      by show (initialSystem emptyEeprom).game.foundTransmitters.length = MAX_TRANSMITTERS; decide,
      ?_, ?_, ?_, ?_, ?_, ?_⟩
    · rw [hfs]
      constructor
      · intro h
        exact absurd h (by simp)
      · rintro ⟨k, hk, _⟩
        simp at hk
    · intro hne
      exact absurd hds hne
    · intro hft
      rw [hfs] at hft
      exact absurd hft (by simp)
    · intro hft
      rw [hfs] at hft
      exact absurd hft (by simp)
    · intro _ _
      exact ⟨hds, Or.inl rfl⟩
    · intro _ hip
      rw [hds] at hip
      exact absurd hip (by simp)
  | append_singleton tr s ih =>
    intro hTB hMono
    have hTBp : TraceForBeacon i tr := fun x hx => hTB x (by simp [hx])
    have hMonop : MonoTimes tr := by
      intro m m' hm hm'
      have h := hMono m m' hm (by simp; omega)
      rwa [timeAt_append_lt tr s m (by omega), timeAt_append_lt tr s m' hm'] at h
    obtain ⟨i1, i2, i3, i4, i5, i6, i7, i8, i9, i10, i11, i12⟩ := ih hTBp hMonop
    have hsid : s.data.id = registryId i := hTB s (by simp)
    obtain ⟨⟨j1, j2, j3, j4, j5, j6⟩, hcases⟩ :=
      sample_step_char est (runSamples est (initialSystem emptyEeprom) tr) s i hi
        i1 i2 i3 i4 i5 i6 hsid
    have hrun : runSamples est (initialSystem emptyEeprom) (tr ++ [s]) =
        OnDataReceived est s.now s.rssi s.data s.drift
          (runSamples est (initialSystem emptyEeprom) tr) :=
      runSamples_append est (initialSystem emptyEeprom) tr s
    have hlen' : (tr ++ [s]).length = tr.length + 1 := by simp
    have hq_at : qualAt est (initialSystem emptyEeprom) (tr ++ [s]) tr.length =
        qualifiesB est (runSamples est (initialSystem emptyEeprom) tr) s :=
      qualAt_append_self est (initialSystem emptyEeprom) tr s
    have ht_at : timeAt (tr ++ [s]) tr.length = s.now := timeAt_append_self tr s
    have hRHS_mono : CodeFoundRHS est (initialSystem emptyEeprom) tr →
        CodeFoundRHS est (initialSystem emptyEeprom) (tr ++ [s]) := by
      rintro ⟨k, hk, j, hjk, hspan, hall⟩
      refine ⟨k, by omega, j, hjk, ?_, ?_⟩
      · rwa [timeAt_append_lt tr s k hk, timeAt_append_lt tr s j (by omega)]
      · intro m hm1 hm2
        rw [qualAt_append_lt est _ tr s m (by omega)]
        exact hall m hm1 hm2
    show C1Inv est i (tr ++ [s])
    unfold C1Inv
    rw [hrun, hlen']
    simp only [Nat.add_sub_cancel]
    rw [hq_at, ht_at]
    rcases hcases with ⟨hb, hqf, hF', hD'⟩ | ⟨hcool, hqf, hF', hD'⟩ |
      ⟨hcool, hq, hipf, hFold, hF', hD'⟩ | ⟨hcool, hq, hip, hfire, hFold, hF', hD'⟩ |
      ⟨hcool, hq, hip, hwait, hFold, hF', hD'⟩
    · -- blocked by the cooldown gate: state unchanged at slot i
      have hD0 : discSlot (runSamples est (initialSystem emptyEeprom) tr) i =
          ⟨false, 0⟩ := by
        by_contra hne
        obtain ⟨hn1, hlast⟩ := i8 hne
        have hmono2 := hMono (tr.length - 1) tr.length (by omega) (by rw [hlen']; omega)
        rw [ht_at, timeAt_append_lt tr s _ (by omega)] at hmono2
        omega
      refine ⟨j1, j2, j3, j4, j5, j6, ?_, ?_, ?_, ?_, ?_, ?_⟩
      · rw [hF']
        constructor
        · intro hft
          exact hRHS_mono (i7.mp hft)
        · rintro ⟨k, hk, j, hjk, hspan, hall⟩
          rw [hlen'] at hk
          have hk' : k < tr.length ∨ k = tr.length := by omega
          rcases hk' with hk' | hk'
          · apply i7.mpr
            refine ⟨k, hk', j, hjk, ?_, ?_⟩
            · rwa [timeAt_append_lt tr s k hk', timeAt_append_lt tr s j (by omega)] at hspan
            · intro m hm1 hm2
              rw [← qualAt_append_lt est (initialSystem emptyEeprom) tr s m (by omega)]
              exact hall m hm1 hm2
          · subst hk'
            have hqn := hall tr.length (by omega) (le_refl _)
            rw [hq_at, hqf] at hqn
            exact absurd hqn (by simp)
      · intro hne
        rw [hD', hD0] at hne
        exact absurd rfl hne
      · intro _
        rw [hD', hD0]
      · intro _ _ _
        rw [hD', hD0]
      · intro _ _
        refine ⟨by rw [hD', hD0], Or.inr hqf⟩
      · intro _ hip'
        rw [hD', hD0] at hip'
        exact absurd hip' (by simp)
    · -- cooldown passed, sample does not qualify: timer discarded
      refine ⟨j1, j2, j3, j4, j5, j6, ?_, ?_, ?_, ?_, ?_, ?_⟩
      · rw [hF']
        constructor
        · intro hft
          exact hRHS_mono (i7.mp hft)
        · rintro ⟨k, hk, j, hjk, hspan, hall⟩
          rw [hlen'] at hk
          have hk' : k < tr.length ∨ k = tr.length := by omega
          rcases hk' with hk' | hk'
          · apply i7.mpr
            refine ⟨k, hk', j, hjk, ?_, ?_⟩
            · rwa [timeAt_append_lt tr s k hk', timeAt_append_lt tr s j (by omega)] at hspan
            · intro m hm1 hm2
              rw [← qualAt_append_lt est (initialSystem emptyEeprom) tr s m (by omega)]
              exact hall m hm1 hm2
          · subst hk'
            have hqn := hall tr.length (by omega) (le_refl _)
            rw [hq_at, hqf] at hqn
            exact absurd hqn (by simp)
      · intro hne
        rw [hD'] at hne
        exact absurd rfl hne
      · intro _
        rw [hD']
      · intro _ _ _
        rw [hD']
      · intro _ _
        exact ⟨by rw [hD'], Or.inr hqf⟩
      · intro _ hip'
        rw [hD'] at hip'
        exact absurd hip' (by simp)
    · -- first qualifying sample: candidacy starts
      refine ⟨j1, j2, j3, j4, j5, j6, ?_, ?_, ?_, ?_, ?_, ?_⟩
      · rw [hF']
        constructor
        · intro hft
          exact absurd hft (by simp)
        · rintro ⟨k, hk, j, hjk, hspan, hall⟩
          rw [hlen'] at hk
          have hk' : k < tr.length ∨ k = tr.length := by omega
          rcases hk' with hk' | hk'
          · have hfst := i7.mpr ⟨k, hk', j, hjk, by
              rwa [timeAt_append_lt tr s k hk', timeAt_append_lt tr s j (by omega)] at hspan,
              fun m hm1 hm2 => by
                rw [← qualAt_append_lt est (initialSystem emptyEeprom) tr s m (by omega)]
                exact hall m hm1 hm2⟩
            rw [hFold] at hfst
            exact absurd hfst (by simp)
          · subst hk'
            obtain ⟨_, hor⟩ := i11 hFold hipf
            rcases hor with h0 | hqlast
            · omega
            · have hqm := hall (tr.length - 1) (by omega) (by omega)
              rw [qualAt_append_lt est (initialSystem emptyEeprom) tr s _ (by omega)] at hqm
              rw [hqm] at hqlast
              exact absurd hqlast (by simp)
      · intro _
        exact ⟨by omega, hcool⟩
      · intro hft
        rw [hF'] at hft
        exact absurd hft (by simp)
      · intro hft _ _
        rw [hF'] at hft
        exact absurd hft (by simp)
      · intro _ hip'
        rw [hD'] at hip'
        exact absurd hip' (by simp)
      · intro _ _
        refine ⟨by omega, hq, tr.length, le_refl _, ?_, ?_, ?_, ?_⟩
        · rw [hD', ht_at]
        · intro m h1 h2
          have hm : m = tr.length := by omega
          rw [hm, hq_at]
          exact hq
        · rcases Nat.eq_zero_or_pos tr.length with h0 | hpos
          · exact Or.inl h0
          · obtain ⟨_, hor⟩ := i11 hFold hipf
            rcases hor with h0 | hqlast
            · omega
            · right
              rw [qualAt_append_lt est (initialSystem emptyEeprom) tr s _ (by omega)]
              exact hqlast
        · rw [ht_at, Nat.sub_self]
          show 0 < SIGNAL_STABILITY_PERIOD
          decide
    · -- second qualifying sample after the stability period: discovery fires
      obtain ⟨hn1, hqlastT, st, hstle, htimer, hrunq, hmin, hspanlt⟩ := i12 hFold hip
      refine ⟨j1, j2, j3, j4, j5, j6, ?_, ?_, ?_, ?_, ?_, ?_⟩
      · rw [hF']
        constructor
        · intro _
          refine ⟨tr.length, by rw [hlen']; omega, st, by omega, ?_, ?_⟩
          · rw [ht_at, timeAt_append_lt tr s st (by omega), ← htimer]
            exact hfire
          · intro m h1 h2
            by_cases hmn : m < tr.length
            · rw [qualAt_append_lt est (initialSystem emptyEeprom) tr s m hmn]
              exact hrunq m h1 (by omega)
            · have hm : m = tr.length := by omega
              rw [hm, hq_at]
              exact hq
        · intro _
          rfl
      · intro _
        exact ⟨by omega, hcool⟩
      · intro _
        rw [hD']
      · intro _ _ hqlast'
        rw [hq] at hqlast'
        exact absurd hqlast' (by simp)
      · intro hft' _
        rw [hF'] at hft'
        exact absurd hft' (by simp)
      · intro hft' _
        rw [hF'] at hft'
        exact absurd hft' (by simp)
    · -- qualifying but the window is not yet spanned: candidacy continues
      obtain ⟨hn1, hqlastT, st, hstle, htimer, hrunq, hmin, hspanlt⟩ := i12 hFold hip
      refine ⟨j1, j2, j3, j4, j5, j6, ?_, ?_, ?_, ?_, ?_, ?_⟩
      · rw [hF']
        constructor
        · intro hft
          exact absurd hft (by simp)
        · rintro ⟨k, hk, j, hjk, hspan, hall⟩
          rw [hlen'] at hk
          have hk' : k < tr.length ∨ k = tr.length := by omega
          rcases hk' with hk' | hk'
          · have hfst := i7.mpr ⟨k, hk', j, hjk, by
              rwa [timeAt_append_lt tr s k hk', timeAt_append_lt tr s j (by omega)] at hspan,
              fun m hm1 hm2 => by
                rw [← qualAt_append_lt est (initialSystem emptyEeprom) tr s m (by omega)]
                exact hall m hm1 hm2⟩
            rw [hFold] at hfst
            exact absurd hfst (by simp)
          · subst hk'
            have hjst : st ≤ j := by
              by_contra hjst
              have hst1 : 1 ≤ st := by omega
              rcases hmin with h0 | hqst
              · omega
              · have hqm := hall (st - 1) (by omega) (by omega)
                rw [qualAt_append_lt est (initialSystem emptyEeprom) tr s _ (by omega)] at hqm
                rw [hqm] at hqst
                exact absurd hqst (by simp)
            have hmt : timeAt tr st ≤ timeAt tr j := hMonop st j hjst (by omega)
            rw [ht_at, timeAt_append_lt tr s j (by omega)] at hspan
            rw [htimer] at hwait
            omega
      · intro _
        exact ⟨by omega, hcool⟩
      · intro hft'
        rw [hF'] at hft'
        exact absurd hft' (by simp)
      · intro hft' _ _
        rw [hF'] at hft'
        exact absurd hft' (by simp)
      · intro _ hip'
        rw [hD'] at hip'
        rw [hip'] at hip
        exact absurd hip (by simp)
      · intro _ _
        refine ⟨by omega, hq, st, by omega, ?_, ?_, ?_, ?_⟩
        · rw [hD', timeAt_append_lt tr s st (by omega)]
          exact htimer
        · intro m h1 h2
          by_cases hmn : m < tr.length
          · rw [qualAt_append_lt est (initialSystem emptyEeprom) tr s m hmn]
            exact hrunq m h1 (by omega)
          · have hm : m = tr.length := by omega
            rw [hm, hq_at]
            exact hq
        · rcases hmin with h0 | hqst
          · exact Or.inl h0
          · right
            rw [qualAt_append_lt est (initialSystem emptyEeprom) tr s _ (by omega)]
            exact hqst
        · rw [timeAt_append_lt tr s st (by omega), ← htimer]
          exact hwait

/-! ## Claim C1 — the discovery state machine -/

/-- **C1 is refuted as stated**: on the concrete trace `exTrace` the
receiver marks beacon 0 `Found`, yet no run of `MIN_SIGNAL_COUNT = 5`
consecutive qualifying samples exists — only samples 8 and 9 (0-based 7
and 8) ever qualify. The `signalCount ≥ MIN_SIGNAL_COUNT` gate counts
*accepted* samples, not qualifying ones, so two qualifying samples five
seconds apart suffice once five arbitrary accepted samples have built up
the count. -/
theorem C1_counterexample :
    foundSlot (runSamples est0 (initialSystem emptyEeprom) exTrace) 0 = true ∧
    ¬ SpecFoundRHS est0 (initialSystem emptyEeprom) exTrace := by
  constructor
  · decide
  · rintro ⟨k, hk, j, hjk, hcount, hspan, hall⟩
    have h9 : exTrace.length = 9 := rfl
    rw [h9] at hk
    have h5 : (5 : Nat) ≤ k - j + 1 := hcount
    have hj4 : j ≤ 4 := by omega
    have hqj := hall j (le_refl j) hjk
    interval_cases j <;> revert hqj <;> decide

/-- **C1 (amended).** For every beacon and every sequence of accepted
samples for it (with nondecreasing arrival times) from a fresh session:
the state machine marks the beacon `Found` **iff** there is an unbroken
run of qualifying samples — each sampling instant satisfying
`signalCount ≥ MIN_SIGNAL_COUNT` (a count of *accepted*, not necessarily
qualifying, samples), `smoothedRSSI ≥ DISCOVERY_RSSI_THRESHOLD`,
`distance ≤ DISCOVERY_RANGE`, not already found, and not in reset
cooldown — containing at least two samples (the candidacy-start sample
and a later confirming one) whose times span at least
`SIGNAL_STABILITY_PERIOD`. Moreover any single disqualifying sample
resets the accumulated candidacy progress to zero: right after it the
static timer state is `⟨false, 0⟩`, so a fresh unbroken run is required. -/
theorem C1_discovery_state_machine :
    ∀ (est : ℚ → ℚ) (tr : List SampleEv) (i : Nat),
      i < transmitterCount → TraceForBeacon i tr → MonoTimes tr →
      (foundSlot (runSamples est (initialSystem emptyEeprom) tr) i = true ↔
        CodeFoundRHS est (initialSystem emptyEeprom) tr) ∧
      (∀ m, m < tr.length → qualAt est (initialSystem emptyEeprom) tr m = false →
        discSlot (stateAt est (initialSystem emptyEeprom) tr (m + 1)) i = ⟨false, 0⟩) := by
  intro est tr i hi hTB hMono
  constructor
  · obtain ⟨_, _, _, _, _, _, hiff, _⟩ := C1_master est i hi tr hTB hMono
    exact hiff
  · intro m hm hqm
    have hplen : (tr.take (m + 1)).length = m + 1 := by
      rw [List.length_take]
      omega
    have hTBp : TraceForBeacon i (tr.take (m + 1)) :=
      fun x hx => hTB x (List.mem_of_mem_take hx)
    have hMonop : MonoTimes (tr.take (m + 1)) := by
      intro a b hab hb
      rw [hplen] at hb
      rw [timeAt_take tr (m + 1) a (by omega), timeAt_take tr (m + 1) b (by omega)]
      exact hMono a b hab (by omega)
    obtain ⟨_, _, _, _, _, _, _, _, _, g10, g11, g12⟩ :=
      C1_master est i hi (tr.take (m + 1)) hTBp hMonop
    have hqlast : qualAt est (initialSystem emptyEeprom) (tr.take (m + 1))
        ((tr.take (m + 1)).length - 1) = false := by
      rw [hplen]
      simp only [Nat.add_sub_cancel]
      rw [qualAt_take est (initialSystem emptyEeprom) tr (m + 1) m (by omega)]
      exact hqm
    show discSlot (runSamples est (initialSystem emptyEeprom) (tr.take (m + 1))) i =
      ⟨false, 0⟩
    cases hF : foundSlot (runSamples est (initialSystem emptyEeprom) (tr.take (m + 1))) i with
    | true =>
      exact g10 hF (by rw [hplen]; omega) hqlast
    | false =>
      cases hip : (discSlot (runSamples est (initialSystem emptyEeprom)
          (tr.take (m + 1))) i).inProgress with
      | true =>
        obtain ⟨_, hql, _⟩ := g12 hF hip
        rw [hqlast] at hql
        exact absurd hql (by simp)
      | false =>
        exact (g11 hF hip).1

/-- Witness for C1 at a concrete input: a single-sample trace for beacon 0
satisfies the hypotheses, and the equivalence holds for it. -/
theorem C1_witness :
    (0 < transmitterCount) ∧
    TraceForBeacon 0 [⟨6000, -50, alphaData, 0⟩] ∧
    MonoTimes [⟨6000, -50, alphaData, 0⟩] ∧
    (foundSlot (runSamples (fun _ => 1) (initialSystem emptyEeprom)
        [⟨6000, -50, alphaData, 0⟩]) 0 = true ↔
      CodeFoundRHS (fun _ => 1) (initialSystem emptyEeprom)
        [⟨6000, -50, alphaData, 0⟩]) := by
  have htb : TraceForBeacon 0 [⟨6000, -50, alphaData, 0⟩] := by
    unfold TraceForBeacon
    decide
  have hmono : MonoTimes [⟨6000, -50, alphaData, 0⟩] := by
    intro m m' h1 h2
    have hm' : m' = 0 := by
      simp only [List.length_cons, List.length_nil] at h2
      omega
    have hm : m = 0 := by omega
    rw [hm, hm']
  exact ⟨by decide, htb, hmono,
    (C1_discovery_state_machine (fun _ => 1) [⟨6000, -50, alphaData, 0⟩] 0
      (by decide) htb hmono).1⟩

end SignalHunt
